import Mathlib

/-! IPMI session framing (go-ipmi, `types_session.go`)

A shallow embedding of the session-layer codecs of the IPMI client:
the v1.5 and v2.0 session headers, the v2.0 session trailer and the
session frames built from them.

Conventions of the embedding

* Go's `uint8`, `uint16` and `uint32` values are natural numbers; the
  predicate `WellTyped` records the range of each field's Go type.
* A `[]byte` is a `List Nat`; `make([]byte, n)` is `List.replicate n 0`
  and `msg[:n]` is `msg.take n`.
* A Go `error` is an `Option IpmiError` (`none` is `nil`).
* A method with a pointer receiver that assigns to its receiver takes
  the receiver's old value and returns the new one next to its results.
-/

namespace Ipmi

/-! ## Errors -/

/-- Go `error` values produced by the session layer. -/
inductive IpmiError where
  /-- The package-level `ErrUnpackedDataTooShort`. -/
  | ErrUnpackedDataTooShort : IpmiError
  /-- A new error made by `fmt.Errorf(format, err)`. -/
  | Errorf (format : String) (err : IpmiError) : IpmiError
  /-- An error made by a collaborator outside the session layer (encryption,
  integrity), told apart by its text. -/
  | Collaborator (text : String) : IpmiError
  /-- A new error made by `fmt.Errorf(text)` with no wrapped error. -/
  | New (text : String) : IpmiError
  deriving DecidableEq, Repr

export IpmiError (ErrUnpackedDataTooShort)

/-! ## Binary field codec -/

/-- Modelled from the spec: `packUint8` is declared outside the files at hand.
Spec 4.1: packs a fixed-width unsigned integer at a caller-given offset into a
pre-sized buffer and fails with the buffer-too-short condition when the
requested slice exceeds the buffer bounds. The call sites
(`_, _ = packUint8(...)`) show that it returns an offset and an error; the
buffer after the call is returned as the first component. A failing call
leaves the buffer and the offset as they were. -/
def packUint8 (i : Nat) (msg : List Nat) (off : Nat) : List Nat × Nat × Option IpmiError :=
  if off + 1 > msg.length then (msg, off, some ErrUnpackedDataTooShort)
  else (msg.set off i, off + 1, none)

/-- Modelled from the spec: `packUint16L` is declared outside the files at hand.
Spec 4.1: a 16-bit unsigned integer, little-endian, at a caller-given offset,
failing when the two bytes do not fit in the buffer. -/
def packUint16L (i : Nat) (msg : List Nat) (off : Nat) : List Nat × Nat × Option IpmiError :=
  if off + 2 > msg.length then (msg, off, some ErrUnpackedDataTooShort)
  else ((msg.set off (i % 256)).set (off + 1) (i / 256 % 256), off + 2, none)

/-- Modelled from the spec: `packUint32L` is declared outside the files at hand.
Spec 4.1: a 32-bit unsigned integer, little-endian, at a caller-given offset,
failing when the four bytes do not fit in the buffer. -/
def packUint32L (i : Nat) (msg : List Nat) (off : Nat) : List Nat × Nat × Option IpmiError :=
  if off + 4 > msg.length then (msg, off, some ErrUnpackedDataTooShort)
  else ((((msg.set off (i % 256)).set (off + 1) (i / 256 % 256)).set (off + 2)
          (i / 65536 % 256)).set (off + 3) (i / 16777216 % 256), off + 4, none)

/-- Modelled from the spec: `packBytes` is declared outside the files at hand.
Spec 4.1: copies a byte range to a caller-given offset of a pre-sized buffer,
failing when the range exceeds the buffer bounds. -/
def packBytes (v : List Nat) (msg : List Nat) (off : Nat) : List Nat × Nat × Option IpmiError :=
  if off + v.length > msg.length then (msg, off, some ErrUnpackedDataTooShort)
  else (msg.take off ++ v ++ msg.drop (off + v.length), off + v.length, none)

/-- Modelled from the spec: `unpackUint8` is declared outside the files at hand.
Spec 4.1: returns the decoded value plus the next read offset and fails with
the buffer-too-short condition when the requested slice exceeds the buffer
bounds. A failing call returns the zero value and the offset unchanged. -/
def unpackUint8 (msg : List Nat) (off : Nat) : Nat × Nat × Option IpmiError :=
  if off + 1 > msg.length then (0, off, some ErrUnpackedDataTooShort)
  else (msg.getD off 0, off + 1, none)

/-- Modelled from the spec: `unpackUint16L` is declared outside the files at
hand. Spec 4.1: decodes a 16-bit little-endian unsigned integer. -/
def unpackUint16L (msg : List Nat) (off : Nat) : Nat × Nat × Option IpmiError :=
  if off + 2 > msg.length then (0, off, some ErrUnpackedDataTooShort)
  else (msg.getD off 0 + 256 * msg.getD (off + 1) 0, off + 2, none)

/-- Modelled from the spec: `unpackUint32L` is declared outside the files at
hand. Spec 4.1: decodes a 32-bit little-endian unsigned integer. -/
def unpackUint32L (msg : List Nat) (off : Nat) : Nat × Nat × Option IpmiError :=
  if off + 4 > msg.length then (0, off, some ErrUnpackedDataTooShort)
  else (msg.getD off 0 + 256 * msg.getD (off + 1) 0 + 65536 * msg.getD (off + 2) 0
          + 16777216 * msg.getD (off + 3) 0, off + 4, none)

/-- Modelled from the spec: `unpackBytes` is declared outside the files at hand.
Spec 4.1 and 4.4: a strict-length read of a byte range, failing when the
requested slice exceeds the buffer bounds. -/
def unpackBytes (msg : List Nat) (off : Nat) (length : Nat) : List Nat × Nat × Option IpmiError :=
  if off + length > msg.length then ([], off, some ErrUnpackedDataTooShort)
  else ((msg.drop off).take length, off + length, none)

/-! ## Session header, IPMI v2.0 -/

/-- The constant `AuthTypeNone`. -/
def AuthTypeNone : Nat := 0x00
/-- The constant `AuthTypeRMCPPlus`. -/
def AuthTypeRMCPPlus : Nat := 0x06

/-- The constant `SessionHeader20SizeMax`. -/
def SessionHeader20SizeMax : Nat := 18
/-- The constant `SessionHeader20SizeMin`. -/
def SessionHeader20SizeMin : Nat := 12
/-- The constant `SessionHeader15SizeMax`. -/
def SessionHeader15SizeMax : Nat := 26
/-- The constant `SessionHeader15SizeMin`. -/
def SessionHeader15SizeMin : Nat := 10

/-- The struct `SessionHeader20`. The default value is Go's zero value,
the state of a header made by `&SessionHeader20{}`. -/
structure SessionHeader20 where
  AuthType : Nat := 0
  PayloadEncrypted : Bool := false
  PayloadAuthenticated : Bool := false
  PayloadType : Nat := 0
  OEMIANA : Nat := 0
  OEMPayloadID : Nat := 0
  SessionID : Nat := 0
  Sequence : Nat := 0
  PayloadLength : Nat := 0
  deriving DecidableEq, Repr

/-- Each field of the header is in the range of its Go type
(`uint8`, `uint16` or `uint32`). -/
def SessionHeader20.WellTyped (h : SessionHeader20) : Prop :=
  h.AuthType < 256 ∧ h.PayloadType < 256 ∧ h.OEMIANA < 4294967296 ∧ h.OEMPayloadID < 65536 ∧
    h.SessionID < 4294967296 ∧ h.Sequence < 4294967296 ∧ h.PayloadLength < 65536

instance (h : SessionHeader20) : Decidable h.WellTyped := by
  unfold SessionHeader20.WellTyped; infer_instance

/-- The method `(*SessionHeader20).Pack`. The constant `PayloadTypeOEM` is declared
outside the files at hand and is taken as a parameter. -/
def SessionHeader20.Pack (PayloadTypeOEM : Nat) (h : SessionHeader20) : List Nat :=
  let msg := List.replicate 18 0
  let msg := (packUint8 (h.AuthType % 256) msg 0).1
  let encryptedMask : Nat := if h.PayloadEncrypted then 0x80 else 0x00
  let authenticatedMask : Nat := if h.PayloadAuthenticated then 0x40 else 0x00
  let msg := (packUint8 (encryptedMask ||| authenticatedMask ||| (h.PayloadType % 256)) msg 1).1
  if h.PayloadType = PayloadTypeOEM then
    let msg := (packUint32L h.OEMIANA msg 2).1
    let msg := (packUint16L h.OEMPayloadID msg 6).1
    let sessionIDIndex := 8
    let msgEndIndex := 18
    let msg := (packUint32L h.SessionID msg sessionIDIndex).1
    let msg := (packUint32L h.Sequence msg (sessionIDIndex + 4)).1
    let msg := (packUint16L h.PayloadLength msg (sessionIDIndex + 8)).1
    msg.take msgEndIndex
  else
    let sessionIDIndex := 2
    let msgEndIndex := 12
    let msg := (packUint32L h.SessionID msg sessionIDIndex).1
    let msg := (packUint32L h.Sequence msg (sessionIDIndex + 4)).1
    let msg := (packUint16L h.PayloadLength msg (sessionIDIndex + 8)).1
    msg.take msgEndIndex

/-- The method `(*SessionHeader20).Unpack`: the receiver after the call and the
returned error. -/
def SessionHeader20.Unpack (PayloadTypeOEM : Nat) (h : SessionHeader20) (msg : List Nat) :
    SessionHeader20 × Option IpmiError :=
  if msg.length < SessionHeader20SizeMin then (h, some ErrUnpackedDataTooShort)
  else
    let authType := (unpackUint8 msg 0).1
    let h := { h with AuthType := authType }
    let payloadType := (unpackUint8 msg 1).1
    let h := { h with PayloadEncrypted := decide (payloadType &&& 0x80 = 0x80) }
    let h := { h with PayloadAuthenticated := decide (payloadType &&& 0x40 = 0x40) }
    let h := { h with PayloadType := payloadType &&& 0x3f }
    if h.PayloadType = PayloadTypeOEM then
      if msg.length < SessionHeader20SizeMax then (h, some ErrUnpackedDataTooShort)
      else
        let h := { h with OEMIANA := (unpackUint32L msg 2).1 }
        let h := { h with OEMPayloadID := (unpackUint16L msg 6).1 }
        let sessionIDIndex := 8
        let h := { h with SessionID := (unpackUint32L msg sessionIDIndex).1 }
        let h := { h with Sequence := (unpackUint32L msg (sessionIDIndex + 4)).1 }
        let h := { h with PayloadLength := (unpackUint16L msg (sessionIDIndex + 8)).1 }
        (h, none)
    else
      let sessionIDIndex := 2
      let h := { h with SessionID := (unpackUint32L msg sessionIDIndex).1 }
      let h := { h with Sequence := (unpackUint32L msg (sessionIDIndex + 4)).1 }
      let h := { h with PayloadLength := (unpackUint16L msg (sessionIDIndex + 8)).1 }
      (h, none)

/-! ## Session header, IPMI v1.5 -/

/-- The struct `SessionHeader15`. The default value is Go's zero value; a nil
and an empty `AuthCode` are both the empty list. -/
structure SessionHeader15 where
  AuthType : Nat := 0
  Sequence : Nat := 0
  SessionID : Nat := 0
  AuthCode : List Nat := []
  PayloadLength : Nat := 0
  deriving DecidableEq, Repr

/-- A valid v1.5 header, after the comment on the struct's `AuthCode` field:
16 bytes, not present when the authentication type is none. -/
def SessionHeader15.Valid (h : SessionHeader15) : Prop :=
  if h.AuthType = AuthTypeNone then h.AuthCode = [] else h.AuthCode.length = 16

instance (h : SessionHeader15) : Decidable h.Valid := by
  unfold SessionHeader15.Valid; infer_instance

/-- The method `(*SessionHeader15).Pack`. -/
def SessionHeader15.Pack (h : SessionHeader15) : List Nat :=
  let msg := List.replicate (10 + h.AuthCode.length) 0
  let msg := (packUint8 (h.AuthType % 256) msg 0).1
  let msg := (packUint32L h.Sequence msg 1).1
  let msg := (packUint32L h.SessionID msg 5).1
  let msg := if h.AuthType ≠ AuthTypeNone then (packBytes h.AuthCode msg 9).1 else msg
  let msg := (packUint8 h.PayloadLength msg msg.length).1
  msg

/-- The method `(*SessionHeader15).Unpack`: the receiver after the call and the
returned error. -/
def SessionHeader15.Unpack (h : SessionHeader15) (msg : List Nat) :
    SessionHeader15 × Option IpmiError :=
  if msg.length < SessionHeader15SizeMin then (h, some ErrUnpackedDataTooShort)
  else
    let b := (unpackUint8 msg 0).1
    let h := { h with AuthType := b }
    let h := { h with Sequence := (unpackUint32L msg 1).1 }
    let h := { h with SessionID := (unpackUint32L msg 5).1 }
    let payloadLengthIndex := 9
    if h.AuthType ≠ AuthTypeNone then
      if msg.length < SessionHeader15SizeMax then (h, some ErrUnpackedDataTooShort)
      else
        let h := { h with AuthCode := (unpackBytes msg 9 16).1 }
        let payloadLengthIndex := 25
        let h := { h with PayloadLength := (unpackUint8 msg payloadLengthIndex).1 }
        (h, none)
    else
      let h := { h with PayloadLength := (unpackUint8 msg payloadLengthIndex).1 }
      (h, none)

/-! ## Session trailer and session frame, IPMI v2.0 -/

/-- Modelled from the spec: `unpackBytesMost` is declared outside the files at
hand. Spec 4.4: unpack at most N bytes; reads up to `length` remaining bytes and
does not fail if fewer than `length` remain. The read fails only when the offset
lies beyond the end of the buffer. -/
def unpackBytesMost (msg : List Nat) (off : Nat) (length : Nat) :
    List Nat × Nat × Option IpmiError :=
  if off > msg.length then ([], off, some ErrUnpackedDataTooShort)
  else ((msg.drop off).take length, min (off + length) msg.length, none)

/-- The struct `SessionTrailer`. -/
structure SessionTrailer where
  IntegrityPAD : List Nat := []
  PadLength : Nat := 0
  NextHeader : Nat := 0
  AuthCode : List Nat := []
  deriving DecidableEq, Repr

/-- The method `(*SessionTrailer).Pack`. -/
def SessionTrailer.Pack (s : SessionTrailer) : List Nat :=
  let msg := List.replicate (s.IntegrityPAD.length + 2 + s.AuthCode.length) 0
  let msg := (packBytes s.IntegrityPAD msg 0).1
  let msg := (packUint8 s.PadLength msg s.IntegrityPAD.length).1
  let msg := (packUint8 s.NextHeader msg (s.IntegrityPAD.length + 1)).1
  let msg := (packBytes s.AuthCode msg (s.IntegrityPAD.length + 2)).1
  msg

/-- The method `(*SessionTrailer).Unpack`: the receiver after the call, the
returned offset and the returned error. The local `err` is declared and
returned, and no statement assigns to it. -/
def SessionTrailer.Unpack (s : SessionTrailer) (msg : List Nat) (off : Nat) (padSize : Nat) :
    SessionTrailer × Nat × Option IpmiError :=
  let err : Option IpmiError := none
  let r := unpackBytes msg off padSize
  let s := { s with IntegrityPAD := r.1 }
  let off := r.2.1
  let r := unpackUint8 msg off
  let s := { s with PadLength := r.1 }
  let off := r.2.1
  let r := unpackUint8 msg off
  let s := { s with NextHeader := r.1 }
  let off := r.2.1
  let r := unpackBytesMost msg off 16
  let s := { s with AuthCode := r.1 }
  let off := r.2.1
  (s, off, err)

/-- The struct `Session20`. The header pointer is a value: `Pack` dereferences
it unconditionally and `Unpack` assigns a freshly made header to it. The trailer
pointer is an `Option`, `none` being nil. -/
structure Session20 where
  SessionHeader20 : SessionHeader20 := {}
  SessionPayload : List Nat := []
  SessionTrailer : Option SessionTrailer := none
  deriving DecidableEq, Repr

/-- The method `(*Session20).Pack`. -/
def Session20.Pack (PayloadTypeOEM : Nat) (s : Session20) : List Nat :=
  let out := s.SessionHeader20.Pack PayloadTypeOEM
  let out := out ++ s.SessionPayload
  match s.SessionTrailer with
  | some sessionTrailer => out ++ sessionTrailer.Pack
  | none => out

/-- The method `(*Session20).Unpack`: the receiver after the call and the returned
error. The function `genSessionTrailerPadLength` and the constant
`PayloadTypeOEM` are declared outside the files at hand and are taken as
parameters. -/
def Session20.Unpack (PayloadTypeOEM : Nat)
    (genSessionTrailerPadLength : List Nat → List Nat → Nat)
    (s : Session20) (msg : List Nat) : Session20 × Option IpmiError :=
  let r := SessionHeader20.Unpack PayloadTypeOEM {} msg
  let sessionHeader := r.1
  match r.2 with
  | some err => (s, some (IpmiError.Errorf "unpack SessionHeader failed, err: %s" err))
  | none =>
    let s := { s with SessionHeader20 := sessionHeader }
    let sessionHeaderSize :=
      if sessionHeader.PayloadType = PayloadTypeOEM then SessionHeader20SizeMax
      else SessionHeader20SizeMin
    let payloadLength := s.SessionHeader20.PayloadLength
    if msg.length < sessionHeaderSize + payloadLength then (s, some ErrUnpackedDataTooShort)
    else
      let s := { s with SessionPayload := (unpackBytes msg sessionHeaderSize payloadLength).1 }
      let s := { s with SessionTrailer := none }
      let sessionTrailerIndex := sessionHeaderSize + payloadLength
      if s.SessionHeader20.PayloadAuthenticated ∧ s.SessionHeader20.SessionID ≠ 0 then
        let padSize := genSessionTrailerPadLength (sessionHeader.Pack PayloadTypeOEM) s.SessionPayload
        let t := SessionTrailer.Unpack {} msg sessionTrailerIndex padSize
        let sessionTrailer := t.1
        match t.2.2 with
        | some err => (s, some (IpmiError.Errorf "unpack SessionTrailer failed, err: %s" err))
        | none => ({ s with SessionTrailer := some sessionTrailer }, none)
      else (s, none)

/-! ## Session frame, IPMI v1.5 -/

/-- The struct `Session15`. The header pointer is a value, as in `Session20`. -/
structure Session15 where
  SessionHeader15 : SessionHeader15 := {}
  Payload : List Nat := []
  LegacyPAD : Nat := 0
  deriving DecidableEq, Repr

/-- The method `(*Session15).Pack`. -/
def Session15.Pack (s : Session15) : List Nat :=
  let out := s.SessionHeader15.Pack
  let out := out ++ s.Payload
  out

/-- The method `(*Session15).Unpack`: the receiver after the call and the returned
error. -/
def Session15.Unpack (s : Session15) (msg : List Nat) : Session15 × Option IpmiError :=
  let r := SessionHeader15.Unpack {} msg
  let sessionHeader := r.1
  match r.2 with
  | some err => (s, some (IpmiError.Errorf "unpack SessionHeader15 failed, err: %s" err))
  | none =>
    let s := { s with SessionHeader15 := sessionHeader }
    let sessionHeaderSize := sessionHeader.Pack.length
    let sessionPayloadSize := sessionHeader.PayloadLength
    if msg.length < sessionHeaderSize + sessionPayloadSize then (s, some ErrUnpackedDataTooShort)
    else
      ({ s with Payload := (unpackBytes msg sessionHeaderSize sessionPayloadSize).1 }, none)

/-! ## Session state and frame generators -/

/-- The constant `SessionStatePreSession`. -/
def SessionStatePreSession : Nat := 0x00
/-- The constant `SessionStateOpenSessionSent`. -/
def SessionStateOpenSessionSent : Nat := 0x01
/-- The constant `SessionStateOpenSessionReceived`. -/
def SessionStateOpenSessionReceived : Nat := 0x02
/-- The constant `SessionStateRakp1Sent`. -/
def SessionStateRakp1Sent : Nat := 0x03
/-- The constant `SessionStateRakp2Received`. -/
def SessionStateRakp2Received : Nat := 0x04
/-- The constant `SessionStateRakp3Sent`. -/
def SessionStateRakp3Sent : Nat := 0x05
/-- The constant `SessionStateActive`. -/
def SessionStateActive : Nat := 0x06
/-- The constant `SessionStateCloseSent`. -/
def SessionStateCloseSent : Nat := 0x07

/-- Modelled from the spec: the v1.5 part of the client's session context is
declared outside the files at hand. Spec 3 (client session context): the v1.5
active flag; `genSession15` also reads `inSeq` and `sessionID` from it. -/
structure V15 where
  active : Bool := false
  inSeq : Nat := 0
  sessionID : Nat := 0
  deriving DecidableEq, Repr

/-- Modelled from the spec: the v2.0 part of the client's session context is
declared outside the files at hand. Spec 3 (client session context): the v2.0
state, session id and sequence counter, the fields `genSession20` reads. -/
structure V20 where
  state : Nat := 0
  bmcSessionID : Nat := 0
  sequence : Nat := 0
  deriving DecidableEq, Repr

/-- Modelled from the spec: the client's session context (`c.session`) is
declared outside the files at hand. Spec 3: the shared auth type, the v1.5 part
and the v2.0 part. -/
structure SessionContext where
  authType : Nat := 0
  v15 : V15 := {}
  v20 : V20 := {}
  deriving DecidableEq, Repr

/-- Modelled from the spec: the struct `Client` is declared outside the files at
hand; the frame generators read only its session context. -/
structure Client where
  session : SessionContext := {}
  deriving DecidableEq, Repr

/-- The method `(*Client).genSession15`. The collaborator
`genAuthCodeForMultiSession` is declared outside the files at hand and is taken
as a parameter (spec 6: `generateAuthCode(payload) -> bytes`). The call of
`DebugBytes` only logs and is left out. -/
def Client.genSession15 (genAuthCodeForMultiSession : Client → List Nat → List Nat)
    (c : Client) (rawPayload : List Nat) : Except IpmiError Session15 :=
  let sessionHeader : SessionHeader15 :=
    { AuthType := AuthTypeNone
      Sequence := 0
      SessionID := 0
      AuthCode := []
      PayloadLength := rawPayload.length % 256 }
  let sessionHeader :=
    if c.session.v15.active ∧ c.session.authType ≠ AuthTypeNone then
      let sessionHeader := { sessionHeader with AuthType := c.session.authType }
      let sessionHeader := { sessionHeader with Sequence := c.session.v15.inSeq }
      let sessionHeader := { sessionHeader with SessionID := c.session.v15.sessionID }
      let authCode := genAuthCodeForMultiSession c rawPayload
      { sessionHeader with AuthCode := authCode }
    else sessionHeader
  Except.ok { SessionHeader15 := sessionHeader, Payload := rawPayload }

/-- The method `(*Client).genSession20`. The collaborators `encryptPlayload` and
`genSessionTrailer` are declared outside the files at hand and are taken as
parameters: each returns either an error or its result (spec 6:
`encryptPayload(payload, context) -> bytes`,
`generateSessionTrailer(headerBytes, payloadBytes) -> SessionTrailer`). The
second argument of `encryptPlayload` is nil at the call, the empty list here.
The calls of `DebugBytes` only log and are left out. -/
def Client.genSession20 (PayloadTypeOEM : Nat)
    (encryptPlayload : Client → List Nat → List Nat → Except IpmiError (List Nat))
    (genSessionTrailer : Client → List Nat → List Nat → Except IpmiError SessionTrailer)
    (c : Client) (payloadType : Nat) (rawPayload : List Nat) : Except IpmiError Session20 :=
  let sessionHeader : SessionHeader20 :=
    { AuthType := AuthTypeRMCPPlus
      PayloadType := payloadType
      PayloadAuthenticated := false
      PayloadEncrypted := false
      SessionID := 0
      Sequence := 0
      PayloadLength := 0 }
  let sessionHeader :=
    if c.session.v20.state = SessionStateActive then
      let sessionHeader := { sessionHeader with PayloadAuthenticated := true }
      let sessionHeader := { sessionHeader with PayloadEncrypted := true }
      let sessionHeader := { sessionHeader with SessionID := c.session.v20.bmcSessionID }
      { sessionHeader with Sequence := c.session.v20.sequence }
    else sessionHeader
  let encrypted : Except IpmiError (List Nat) :=
    if c.session.v20.state = SessionStateActive ∧ sessionHeader.PayloadEncrypted then
      match encryptPlayload c rawPayload [] with
      | Except.error err => Except.error (IpmiError.Errorf "encrypt payload failed, err: %s" err)
      | Except.ok e => Except.ok e
    else Except.ok rawPayload
  match encrypted with
  | Except.error err => Except.error err
  | Except.ok sessionPayload =>
    let sessionHeader := { sessionHeader with PayloadLength := sessionPayload.length % 65536 }
    let sessionHeaderBytes := sessionHeader.Pack PayloadTypeOEM
    if sessionHeader.PayloadAuthenticated ∧ sessionHeader.SessionID ≠ 0 then
      match genSessionTrailer c sessionHeaderBytes sessionPayload with
      | Except.error err =>
        Except.error (IpmiError.Errorf "genSessionTrailer failed, err: %s" err)
      | Except.ok sessionTrailer =>
        Except.ok
          { SessionHeader20 := sessionHeader
            SessionPayload := sessionPayload
            SessionTrailer := some sessionTrailer }
    else
      Except.ok
        { SessionHeader20 := sessionHeader
          SessionPayload := sessionPayload
          SessionTrailer := none }

/-! ## Commands: chassis status, system info, Dell OEM MAC addresses -/

/-- Modelled from the spec: `unpackUint16` is declared outside the files at hand.
Spec 4.1: decodes a 16-bit unsigned integer at a caller-given offset and fails
when the two bytes do not fit in the buffer. The spec names little-endian for
16-bit fields and the codec also has `unpackUint16L`; the byte order of this
decoder is the parameter `bigEndian`. -/
def unpackUint16 (bigEndian : Bool) (msg : List Nat) (off : Nat) :
    Nat × Nat × Option IpmiError :=
  if off + 2 > msg.length then (0, off, some ErrUnpackedDataTooShort)
  else if bigEndian then (256 * msg.getD off 0 + msg.getD (off + 1) 0, off + 2, none)
  else (msg.getD off 0 + 256 * msg.getD (off + 1) 0, off + 2, none)

/-- Modelled from the spec: `isBit0Set` is declared outside the files at hand.
Spec 9: bit-flag extraction by a helper per bit position on a raw byte. -/
def isBit0Set (b : Nat) : Bool := b.testBit 0
/-- Modelled from the spec: `isBit1Set`, as `isBit0Set`. -/
def isBit1Set (b : Nat) : Bool := b.testBit 1
/-- Modelled from the spec: `isBit2Set`, as `isBit0Set`. -/
def isBit2Set (b : Nat) : Bool := b.testBit 2
/-- Modelled from the spec: `isBit3Set`, as `isBit0Set`. -/
def isBit3Set (b : Nat) : Bool := b.testBit 3
/-- Modelled from the spec: `isBit4Set`, as `isBit0Set`. -/
def isBit4Set (b : Nat) : Bool := b.testBit 4
/-- Modelled from the spec: `isBit5Set`, as `isBit0Set`. -/
def isBit5Set (b : Nat) : Bool := b.testBit 5
/-- Modelled from the spec: `isBit6Set`, as `isBit0Set`. -/
def isBit6Set (b : Nat) : Bool := b.testBit 6
/-- Modelled from the spec: `isBit7Set`, as `isBit0Set`. -/
def isBit7Set (b : Nat) : Bool := b.testBit 7

/-- The struct `GetChassisStatusResponse`. -/
structure GetChassisStatusResponse where
  PowerRestorePolicy : Nat := 0
  PowerControlFault : Bool := false
  PowerFault : Bool := false
  InterLock : Bool := false
  PowerOverload : Bool := false
  PowerIsOn : Bool := false
  LastPowerOnByCommand : Bool := false
  LastPowerDownByPowerFault : Bool := false
  LastPowerDownByPowerInterlockActivated : Bool := false
  LastPowerDownByPowerOverload : Bool := false
  ACFailed : Bool := false
  CollingFanFault : Bool := false
  DriveFault : Bool := false
  FrontPanelLockoutActive : Bool := false
  ChassisIntrusionActive : Bool := false
  SleepButtonDisableAllowed : Bool := false
  DiagnosticButtonDisableAllowed : Bool := false
  ResetButtonDisableAllowed : Bool := false
  PoweroffButtonDisableAllowed : Bool := false
  SleepButtonDisabled : Bool := false
  DiagnosticButtonDisabled : Bool := false
  ResetButtonDisabled : Bool := false
  PoweroffButtonDisabled : Bool := false
  deriving Repr

/-- The method `(*GetChassisStatusResponse).Unpack`: the receiver after the call
and the returned error. The assignments that follow the read of one byte are
written as one update of the receiver. -/
def GetChassisStatusResponse.Unpack (res : GetChassisStatusResponse) (msg : List Nat) :
    GetChassisStatusResponse × Option IpmiError :=
  if msg.length < 3 then (res, some ErrUnpackedDataTooShort)
  else
    let b1 := (unpackUint8 msg 0).1
    let b := (b1 &&& 0x7f) >>> 5
    let res :=
      { res with
        PowerRestorePolicy := b
        PowerControlFault := isBit4Set b1
        PowerFault := isBit3Set b1
        InterLock := isBit2Set b1
        PowerOverload := isBit1Set b1
        PowerIsOn := isBit0Set b1 }
    let b2 := (unpackUint8 msg 1).1
    let res :=
      { res with
        LastPowerOnByCommand := isBit4Set b2
        LastPowerDownByPowerFault := isBit3Set b2
        LastPowerDownByPowerInterlockActivated := isBit2Set b2
        LastPowerDownByPowerOverload := isBit1Set b2
        ACFailed := isBit0Set b2 }
    let b3 := (unpackUint8 msg 2).1
    let res :=
      { res with
        CollingFanFault := isBit3Set b3
        DriveFault := isBit2Set b3
        FrontPanelLockoutActive := isBit1Set b3
        ChassisIntrusionActive := isBit0Set b3 }
    if msg.length = 4 then
      let b4 := (unpackUint8 msg 3).1
      let res :=
        { res with
          SleepButtonDisableAllowed := isBit7Set b4
          DiagnosticButtonDisableAllowed := isBit6Set b4
          ResetButtonDisableAllowed := isBit5Set b4
          PoweroffButtonDisableAllowed := isBit4Set b4
          SleepButtonDisabled := isBit3Set b4
          DiagnosticButtonDisabled := isBit2Set b4
          ResetButtonDisabled := isBit1Set b4
          PoweroffButtonDisabled := isBit0Set b4 }
      (res, none)
    else (res, none)

/-- The struct `GetSystemInfoRequest`; Go's `int` is an integer. -/
structure GetSystemInfoRequest where
  param : Int := 0
  block : Int := 0
  deriving DecidableEq, Repr

/-- The struct `GetSystemInfoResponse`. -/
structure GetSystemInfoResponse where
  Response : List Nat := []
  deriving DecidableEq, Repr

/-- The method `(*GetSystemInfoRequest).Pack`; `uint8(x)` of an `int` is its
residue modulo 256. -/
def GetSystemInfoRequest.Pack (req : GetSystemInfoRequest) : List Nat :=
  let out := List.replicate 4 0
  let out := (packUint8 0 out 0).1
  let out := (packUint8 (req.param % 256).toNat out 1).1
  let out := (packUint8 (req.block % 256).toNat out 2).1
  let out := (packUint8 0 out 3).1
  out

/-- The method `(*GetSystemInfoResponse).Unpack`. -/
def GetSystemInfoResponse.Unpack (res : GetSystemInfoResponse) (msg : List Nat) :
    GetSystemInfoResponse × Option IpmiError :=
  ({ res with Response := msg }, none)

/-- The method `(*Client).GetSystemInfo`: the returned response and error. The
collaborator `Exchange` is declared outside the files at hand and is taken as a
parameter that returns the response after the exchange next to the error. -/
def Client.GetSystemInfo
    (Exchange : Client → GetSystemInfoRequest → GetSystemInfoResponse →
      GetSystemInfoResponse × Option IpmiError)
    (c : Client) (param block : Int) : GetSystemInfoResponse × Option IpmiError :=
  let request : GetSystemInfoRequest := { param := param, block := block }
  let response : GetSystemInfoResponse := {}
  Exchange c request response

/-- The constant `imcIdrac10g`. -/
def imcIdrac10g : Nat := 0x08
/-- The constant `imcIdrac11gMonolithic`. -/
def imcIdrac11gMonolithic : Nat := 0x0A
/-- The constant `imcIdrac11gModular`. -/
def imcIdrac11gModular : Nat := 0x0B
/-- The constant `imcMaserLiteBMC`. -/
def imcMaserLiteBMC : Nat := 0x0D
/-- The constant `imcMaserLiteNU`. -/
def imcMaserLiteNU : Nat := 0x0E
/-- The constant `imcIdrac12gMonolithic`. -/
def imcIdrac12gMonolithic : Nat := 0x10
/-- The constant `imcIdrac12gModular`. -/
def imcIdrac12gModular : Nat := 0x11
/-- The constant `imcIdrac13gMonolithic`. -/
def imcIdrac13gMonolithic : Nat := 0x20
/-- The constant `imcIdrac13gModular`. -/
def imcIdrac13gModular : Nat := 0x21
/-- The constant `imcIdrac13gDCS`. -/
def imcIdrac13gDCS : Nat := 0x22
/-- The constant `imcIdrac14gMonolithic`. -/
def imcIdrac14gMonolithic : Nat := 0x30
/-- The constant `imcIdrac15gMonolithic`. -/
def imcIdrac15gMonolithic : Nat := 0x40

/-- The struct `DellOEMClient`; the embedded client pointer is a value. -/
structure DellOEMClient where
  Client : Client := {}
  idrac10gOrOlder : Bool := false
  embNIC : Int := 0
  deriving DecidableEq, Repr

/-- The function `NewDellOEMClient`. The `switch` on `Response[10]` sets the pair
(`imcOlderGen`, `imcTypeSet`); a chain of `fallthrough` cases shares the body of
its last case. -/
def NewDellOEMClient
    (Exchange : Client → GetSystemInfoRequest → GetSystemInfoResponse →
      GetSystemInfoResponse × Option IpmiError)
    (client : Client) : Except IpmiError DellOEMClient :=
  let r := client.GetSystemInfo Exchange 0xDD 2
  let systemRes := r.1
  match r.2 with
  | some err => Except.error (IpmiError.Errorf "GetSystemInfo failed, err: %s" err)
  | none =>
    if systemRes.Response.length < 11 then
      Except.error (IpmiError.New "empty GetSystemInfo response")
    else
      let t := systemRes.Response.getD 10 0
      let flags : Bool × Bool :=
        if t = imcIdrac10g then (true, true)
        else if t = imcMaserLiteNU ∨ t = imcMaserLiteBMC ∨ t = imcIdrac11gModular ∨
            t = imcIdrac11gMonolithic ∨ t = imcIdrac12gMonolithic ∨ t = imcIdrac12gModular ∨
            t = imcIdrac13gMonolithic ∨ t = imcIdrac13gModular ∨
            t = imcIdrac14gMonolithic then (false, true)
        else if t = imcIdrac15gMonolithic then (false, true)
        else (false, false)
      let imcOlderGen := flags.1
      let imcTypeSet := flags.2
      let embNIC : Int :=
        if imcTypeSet then
          if imcOlderGen then 0xCB else 0xDA
        else -1
      Except.ok { Client := client, embNIC := embNIC, idrac10gOrOlder := imcOlderGen }

/-- The struct `GetDellOEMMACCountRequest`. -/
structure GetDellOEMMACCountRequest where
  embNIC : Int := 0
  deriving DecidableEq, Repr

/-- The struct `GetDellOEMMACCountResponse`. -/
structure GetDellOEMMACCountResponse where
  legacy : Bool := false
  nicCount : Int := 0
  deriving DecidableEq, Repr

/-- The method `(*GetDellOEMMACCountRequest).Pack`. -/
def GetDellOEMMACCountRequest.Pack (req : GetDellOEMMACCountRequest) : List Nat :=
  let out := List.replicate 6 0
  let out := (packUint8 0 out 0).1
  let out := (packUint8 (req.embNIC % 256).toNat out 1).1
  let out := (packUint8 0 out 2).1
  let out := (packUint8 0 out 3).1
  let out := (packUint8 0 out 4).1
  let out := (packUint8 0 out 5).1
  out

/-- The method `(*GetDellOEMMACCountResponse).Unpack`; `maxLen / 8` is a `uint8`
division. -/
def GetDellOEMMACCountResponse.Unpack (res : GetDellOEMMACCountResponse) (msg : List Nat) :
    GetDellOEMMACCountResponse × Option IpmiError :=
  if msg.length < 2 then (res, some ErrUnpackedDataTooShort)
  else if res.legacy then (res, none)
  else
    let maxLen := (unpackUint8 msg 1).1
    ({ res with nicCount := ((maxLen / 8 : Nat) : Int) }, none)

/-- The struct `GetDellOEMMACRequest`. -/
structure GetDellOEMMACRequest where
  embNIC : Int := 0
  nicIndex : Int := 0
  deriving DecidableEq, Repr

/-- The struct `GetDellOEMMACResponse`; `net.HardwareAddr` is a byte slice. -/
structure GetDellOEMMACResponse where
  legacy : Bool := false
  bladSlotNumber : Int := 0
  nicNumber : Int := 0
  mac : List Nat := []
  enabled : Bool := false
  deriving DecidableEq, Repr

/-- The method `(*GetDellOEMMACRequest).Pack`. The product `nicIndex * 8` is taken
in the integers: a wrap of Go's 64-bit `int` does not change its residue modulo
256, which is all that `uint8(offset)` keeps. -/
def GetDellOEMMACRequest.Pack (req : GetDellOEMMACRequest) : List Nat :=
  let out := List.replicate 6 0
  let out := (packUint8 0 out 0).1
  let out := (packUint8 (req.embNIC % 256).toNat out 1).1
  let out := (packUint8 0 out 2).1
  let out := (packUint8 0 out 3).1
  let length : Int := 8
  let offset := req.nicIndex * length
  let out := (packUint8 (offset % 256).toNat out 4).1
  let out := (packUint8 (length % 256).toNat out 5).1
  out

/-- The method `(*GetDellOEMMACResponse).Unpack`: the receiver after the call and
the returned error. The legacy branch is empty in the source. -/
def GetDellOEMMACResponse.Unpack (bigEndian : Bool) (res : GetDellOEMMACResponse)
    (msg : List Nat) : GetDellOEMMACResponse × Option IpmiError :=
  if msg.length < 2 then (res, some ErrUnpackedDataTooShort)
  else if res.legacy then (res, none)
  else
    let cursor := 1
    let r := unpackUint16 bigEndian msg cursor
    let metadata := r.1
    let cursor := r.2.1
    let bladSlotNumber := (metadata &&& 0xf000) >>> 12
    let macType := (metadata &&& 0x0c00) >>> 10
    let ethernetStatus := (metadata &&& 0x0300) >>> 8
    let nicNumber := (metadata &&& 0x00f8) >>> 3
    if macType = 0 then
      let res := { res with bladSlotNumber := (bladSlotNumber : Int) }
      let res := { res with enabled := decide (ethernetStatus = 0) }
      let res := { res with nicNumber := (nicNumber : Int) }
      let res := { res with mac := (unpackBytes msg cursor 6).1 }
      (res, none)
    else (res, none)

/-- The method `(*DellOEMClient).GetDellOEMMACCount`: the returned count and
error. The collaborator `Exchange` is taken as a parameter, as in
`Client.GetSystemInfo`. -/
def DellOEMClient.GetDellOEMMACCount
    (Exchange : Ipmi.Client → GetDellOEMMACCountRequest → GetDellOEMMACCountResponse →
      GetDellOEMMACCountResponse × Option IpmiError)
    (c : DellOEMClient) : Int × Option IpmiError :=
  let request : GetDellOEMMACCountRequest := { embNIC := c.embNIC }
  let response : GetDellOEMMACCountResponse := { legacy := c.idrac10gOrOlder }
  let r := Exchange c.Client request response
  match r.2 with
  | some err => (0, some err)
  | none => (r.1.nicCount, none)

/-- The method `(*DellOEMClient).GetDellOEMMAC`: the returned slot number, NIC
number, MAC address, enabled flag and error. -/
def DellOEMClient.GetDellOEMMAC
    (Exchange : Ipmi.Client → GetDellOEMMACRequest → GetDellOEMMACResponse →
      GetDellOEMMACResponse × Option IpmiError)
    (c : DellOEMClient) (nicIndex : Int) : Int × Int × List Nat × Bool × Option IpmiError :=
  let request : GetDellOEMMACRequest := { nicIndex := nicIndex, embNIC := c.embNIC }
  let response : GetDellOEMMACResponse := { legacy := c.idrac10gOrOlder }
  let r := Exchange c.Client request response
  match r.2 with
  | some err => (0, 0, [], false, some err)
  | none => (r.1.bladSlotNumber, r.1.nicNumber, r.1.mac, r.1.enabled, none)

/-- The loop of `GetDellOEMMACs`, `for i := 0; i < nicCount; i++`, with
`remaining` iterations left from index `i`. The rendering `mac.String()` of the
standard library is the parameter `macString`. -/
def DellOEMClient.GetDellOEMMACsLoop
    (ExchangeMAC : Ipmi.Client → GetDellOEMMACRequest → GetDellOEMMACResponse →
      GetDellOEMMACResponse × Option IpmiError)
    (macString : List Nat → String) (c : DellOEMClient) :
    Nat → Int → List String → List String × Option IpmiError
  | 0, _, macList => (macList, none)
  | remaining + 1, i, macList =>
    let r := c.GetDellOEMMAC ExchangeMAC i
    match r.2.2.2.2 with
    | some _ => ([], some (IpmiError.New ("error in getting NIC #" ++ toString (i + 1))))
    | none =>
      DellOEMClient.GetDellOEMMACsLoop ExchangeMAC macString c remaining (i + 1)
        (macList ++ [macString r.2.2.1])

/-- The method `(*DellOEMClient).GetDellOEMMACs`: the returned list and error. -/
def DellOEMClient.GetDellOEMMACs
    (ExchangeCount : Ipmi.Client → GetDellOEMMACCountRequest → GetDellOEMMACCountResponse →
      GetDellOEMMACCountResponse × Option IpmiError)
    (ExchangeMAC : Ipmi.Client → GetDellOEMMACRequest → GetDellOEMMACResponse →
      GetDellOEMMACResponse × Option IpmiError)
    (macString : List Nat → String) (c : DellOEMClient) : List String × Option IpmiError :=
  if c.embNIC ≥ 0 then
    let r := c.GetDellOEMMACCount ExchangeCount
    let nicCount := r.1
    match r.2 with
    | some _ => ([], some (IpmiError.New "error in getting NIC count"))
    | none =>
      DellOEMClient.GetDellOEMMACsLoop ExchangeMAC macString c nicCount.toNat 0 []
  else ([], none)

/-! ## Concrete values -/

/-- The IPMI v2.0 payload type number of an OEM explicit payload, the value used
for the parameter `PayloadTypeOEM` in the concrete instances below. -/
def examplePayloadTypeOEM : Nat := 0x02

/-- A pad-length function for the concrete instances below: the smallest pad
that makes header plus payload a multiple of four bytes. -/
def examplePadLength (sessionHeader sessionPayload : List Nat) : Nat :=
  (4 - (sessionHeader.length + sessionPayload.length) % 4) % 4

/-- An OEM v2.0 header with both flags set. -/
def exampleHeaderOEM : SessionHeader20 :=
  { AuthType := 0x06, PayloadEncrypted := true, PayloadAuthenticated := true,
    PayloadType := 0x02, OEMIANA := 0x0002A2, OEMPayloadID := 0x1234,
    SessionID := 0xA1B2C3D4, Sequence := 7, PayloadLength := 0x0102 }

/-- An authenticated v2.0 frame: 12 header bytes, 3 payload bytes, one pad byte
and a 12-byte authentication code. -/
def exampleSession : Session20 :=
  { SessionHeader20 :=
      { AuthType := 0x06, PayloadEncrypted := true, PayloadAuthenticated := true,
        PayloadType := 0x00, SessionID := 0x11223344, Sequence := 1, PayloadLength := 3 }
    SessionPayload := [0x0A, 0x0B, 0x0C]
    SessionTrailer := some
      { IntegrityPAD := [0xFF], PadLength := 1, NextHeader := 0x07,
        AuthCode := [1, 2, 3, 4, 5, 6, 7, 8, 9, 10, 11, 12] } }

/-- A v1.5 header with MD5 authentication and a 16-byte authentication code. -/
def exampleHeader15 : SessionHeader15 :=
  { AuthType := 0x02, Sequence := 0x04030201, SessionID := 0x08070605,
    AuthCode := [1, 2, 3, 4, 5, 6, 7, 8, 9, 10, 11, 12, 13, 14, 15, 16], PayloadLength := 7 }

/-- A client before the v2.0 handshake, with no v1.5 session. -/
def exampleClientPreSession : Client :=
  { session := { authType := 0x00, v15 := {}, v20 := { state := 0x00 } } }

/-- A client with an active v2.0 session and an active v1.5 session with MD5
authentication. -/
def exampleClientActive : Client :=
  { session :=
      { authType := 0x02
        v15 := { active := true, inSeq := 9, sessionID := 0x0A0B0C0D }
        v20 := { state := 0x06, bmcSessionID := 0x11223344, sequence := 5 } } }

/-- An encryption collaborator that always fails. -/
def exampleEncryptFails (_c : Client) (_rawPayload _iv : List Nat) :
    Except IpmiError (List Nat) :=
  Except.error (IpmiError.Collaborator "no cipher")

/-- A trailer collaborator that always fails. -/
def exampleTrailerFails (_c : Client) (_sessionHeader _sessionPayload : List Nat) :
    Except IpmiError SessionTrailer :=
  Except.error (IpmiError.Collaborator "no integrity key")

/-- An encryption collaborator that puts a 4-byte confidentiality header in front
of the payload. -/
def exampleEncrypt (_c : Client) (rawPayload _iv : List Nat) : Except IpmiError (List Nat) :=
  Except.ok ([0xE0, 0xE1, 0xE2, 0xE3] ++ rawPayload)

/-- A trailer collaborator that pads with 0xFF bytes and uses the last two header
bytes as authentication code. -/
def exampleTrailer (_c : Client) (sessionHeader sessionPayload : List Nat) :
    Except IpmiError SessionTrailer :=
  Except.ok
    { IntegrityPAD := List.replicate (examplePadLength sessionHeader sessionPayload) 0xFF
      PadLength := examplePadLength sessionHeader sessionPayload
      NextHeader := 0x07
      AuthCode := sessionHeader.drop (sessionHeader.length - 2) }

/-- An authentication-code collaborator for v1.5 frames: sixteen times the
payload's length byte. -/
def exampleAuthCode (_c : Client) (rawPayload : List Nat) : List Nat :=
  List.replicate 16 (rawPayload.length % 256)

/-- An exchange for `GetSystemInfo` that answers with 11 bytes whose IMC type
byte is `imcIdrac13gDCS`. -/
def exampleExchangeSystemInfo (_c : Client) (_request : GetSystemInfoRequest)
    (response : GetSystemInfoResponse) : GetSystemInfoResponse × Option IpmiError :=
  ({ response with Response := [0, 0, 0, 0, 0, 0, 0, 0, 0, 0, 0x22] }, none)

/-! # Theorems -/


/-! ## Helper lemmas: bit masks of the v2.0 flag byte -/

/-- Masking with a single bit gives that bit back exactly when it is set. -/
theorem land_two_pow_eq_iff (b k : Nat) : b &&& 2 ^ k = 2 ^ k ↔ b.testBit k = true := by
  constructor
  · intro hb
    have h2 := congrArg (fun n => Nat.testBit n k) hb
    simpa [Nat.testBit_two_pow] using h2
  · intro hb
    apply Nat.eq_of_testBit_eq
    intro i
    by_cases hi : k = i
    · subst hi; simp [Nat.testBit_two_pow, hb]
    · simp [Nat.testBit_two_pow, hi]

/-- The test `b & mask == mask` of a one-bit mask is the bit itself. -/
theorem testBit_of_mask (b k : Nat) : decide (b &&& 2 ^ k = 2 ^ k) = b.testBit k := by
  cases hb : b.testBit k
  · have hn : ¬ (b &&& 2 ^ k = 2 ^ k) := by
      intro hc
      rw [land_two_pow_eq_iff] at hc
      rw [hb] at hc
      exact Bool.false_ne_true hc
    exact decide_eq_false hn
  · exact decide_eq_true ((land_two_pow_eq_iff b k).2 hb)

/-- The three masks applied to a flag byte built from two flags and a 6-bit
payload type recover the payload type and the flags. -/
theorem flagByte_masks (e a : Bool) (p : Nat) (hp : p < 64) :
    (((if e then 0x80 else 0x00) ||| (if a then 0x40 else 0x00) ||| p) &&& 0x3f = p) ∧
    (decide (((if e then 0x80 else 0x00) ||| (if a then 0x40 else 0x00) ||| p) &&& 0x80 = 0x80)
      = e) ∧
    (decide (((if e then 0x80 else 0x00) ||| (if a then 0x40 else 0x00) ||| p) &&& 0x40 = 0x40)
      = a) := by
  revert p
  cases e <;> cases a <;> decide

/-! ## Helper lemmas: the codec on buffers of known shape -/

/-- An in-bounds `unpackUint8` reads the byte at the offset. -/
theorem unpackUint8_fst (msg : List Nat) (off : Nat) (hoff : off < msg.length) :
    (unpackUint8 msg off).1 = msg.getD off 0 := by
  unfold unpackUint8
  rw [if_neg (by omega)]

/-- Writing one byte right after a known front part of the buffer. -/
theorem packUint8_at_append (i x : Nat) (pre post : List Nat) :
    (packUint8 i (pre ++ x :: post) pre.length).1 = pre ++ i :: post := by
  unfold packUint8
  rw [if_neg (by simp)]
  simp

/-- Writing a byte range right after a known front part of the buffer. -/
theorem packBytes_at_append (v w pre post : List Nat) (hw : w.length = v.length) :
    (packBytes v (pre ++ w ++ post) pre.length).1 = pre ++ v ++ post := by
  unfold packBytes
  rw [if_neg (by simp; omega)]
  simp [← hw]

/-- A strict-length read of the middle part of a three-part buffer. -/
theorem unpackBytes_middle (a b c : List Nat) :
    (unpackBytes (a ++ (b ++ c)) a.length b.length).1 = b := by
  unfold unpackBytes
  rw [if_neg (by simp)]
  simp

/-! ## Helper lemmas: the packed bytes of headers and trailer -/

/-- The bytes written by `SessionHeader20.Pack`, before any range assumption. -/
theorem sessionHeader20_pack_bytes (oem : Nat) (h : SessionHeader20) :
    h.Pack oem =
      if h.PayloadType = oem then
        [h.AuthType % 256,
         (if h.PayloadEncrypted then 0x80 else 0x00) |||
           (if h.PayloadAuthenticated then 0x40 else 0x00) ||| (h.PayloadType % 256),
         h.OEMIANA % 256, h.OEMIANA / 256 % 256, h.OEMIANA / 65536 % 256,
         h.OEMIANA / 16777216 % 256,
         h.OEMPayloadID % 256, h.OEMPayloadID / 256 % 256,
         h.SessionID % 256, h.SessionID / 256 % 256, h.SessionID / 65536 % 256,
         h.SessionID / 16777216 % 256,
         h.Sequence % 256, h.Sequence / 256 % 256, h.Sequence / 65536 % 256,
         h.Sequence / 16777216 % 256,
         h.PayloadLength % 256, h.PayloadLength / 256 % 256]
      else
        [h.AuthType % 256,
         (if h.PayloadEncrypted then 0x80 else 0x00) |||
           (if h.PayloadAuthenticated then 0x40 else 0x00) ||| (h.PayloadType % 256),
         h.SessionID % 256, h.SessionID / 256 % 256, h.SessionID / 65536 % 256,
         h.SessionID / 16777216 % 256,
         h.Sequence % 256, h.Sequence / 256 % 256, h.Sequence / 65536 % 256,
         h.Sequence / 16777216 % 256,
         h.PayloadLength % 256, h.PayloadLength / 256 % 256] := by
  unfold SessionHeader20.Pack
  split <;> simp [packUint8, packUint16L, packUint32L, List.replicate]

/-- The length of a packed v2.0 header in terms of the size constants. -/
theorem sessionHeader20_pack_length_eq (oem : Nat) (h : SessionHeader20) :
    (h.Pack oem).length = if h.PayloadType = oem then SessionHeader20SizeMax
      else SessionHeader20SizeMin := by
  rw [sessionHeader20_pack_bytes]
  split <;> rfl

/-- Unpacking a packed v2.0 header followed by any further bytes gives the
header back. -/
theorem sessionHeader20_unpack_pack_append (oem : Nat) (h : SessionHeader20) (rest : List Nat)
    (hw : h.WellTyped) (hp : h.PayloadType < 0x40)
    (ho : h.PayloadType ≠ oem → h.OEMIANA = 0 ∧ h.OEMPayloadID = 0) :
    SessionHeader20.Unpack oem {} (h.Pack oem ++ rest) = (h, none) := by
  obtain ⟨h1, h2, h3, h4, h5, h6, h7⟩ := hw
  obtain ⟨m1, m2, m3⟩ := flagByte_masks h.PayloadEncrypted h.PayloadAuthenticated h.PayloadType hp
  have hpt : h.PayloadType % 256 = h.PayloadType := Nat.mod_eq_of_lt h2
  rw [sessionHeader20_pack_bytes]
  by_cases hoem : h.PayloadType = oem
  · rw [if_pos hoem]
    subst hoem
    simp only [SessionHeader20.Unpack, SessionHeader20SizeMin, SessionHeader20SizeMax,
      unpackUint8, unpackUint16L, unpackUint32L, hpt]
    simp_arith [m1, m2, m3]
    cases h
    simp at *
    omega
  · rw [if_neg hoem]
    obtain ⟨o1, o2⟩ := ho hoem
    simp only [SessionHeader20.Unpack, SessionHeader20SizeMin, SessionHeader20SizeMax,
      unpackUint8, unpackUint16L, unpackUint32L, hpt]
    simp_arith [m1, m2, m3, hoem]
    cases h
    simp at *
    omega

/-- The bytes written by `SessionHeader15.Pack`: the final `packUint8` is aimed
at offset `len(msg)`, outside the buffer, and writes nothing. -/
theorem sessionHeader15_pack_bytes (h : SessionHeader15) :
    h.Pack =
      [h.AuthType % 256,
       h.Sequence % 256, h.Sequence / 256 % 256, h.Sequence / 65536 % 256,
       h.Sequence / 16777216 % 256,
       h.SessionID % 256, h.SessionID / 256 % 256, h.SessionID / 65536 % 256,
       h.SessionID / 16777216 % 256] ++
      (if h.AuthType ≠ AuthTypeNone then h.AuthCode ++ [0]
       else List.replicate (h.AuthCode.length + 1) 0) := by
  have hrep : List.replicate (10 + h.AuthCode.length) 0
      = 0 :: 0 :: 0 :: 0 :: 0 :: 0 :: 0 :: 0 :: 0 :: List.replicate (h.AuthCode.length + 1) 0 := by
    rw [show 10 + h.AuthCode.length = h.AuthCode.length + 1 + 9 by omega]
    rfl
  unfold SessionHeader15.Pack
  simp only [hrep]
  by_cases ha : h.AuthType = AuthTypeNone
  · simp_arith [packUint8, packUint32L, packBytes, ha]
  · simp_arith [packUint8, packUint32L, packBytes, ha]
    rw [show 9 + h.AuthCode.length = h.AuthCode.length + 9 by omega]
    simp [List.drop_replicate]

/-- The bytes written by `SessionTrailer.Pack`. -/
theorem sessionTrailer_pack_bytes (t : SessionTrailer) :
    t.Pack = t.IntegrityPAD ++ [t.PadLength, t.NextHeader] ++ t.AuthCode := by
  have hrep : List.replicate (t.IntegrityPAD.length + 2 + t.AuthCode.length) 0
      = List.replicate t.IntegrityPAD.length 0 ++ 0 :: 0 :: List.replicate t.AuthCode.length 0 := by
    rw [Nat.add_assoc, List.replicate_add, List.replicate_add]
    rfl
  unfold SessionTrailer.Pack
  simp only [hrep]
  have s1 := packBytes_at_append t.IntegrityPAD (List.replicate t.IntegrityPAD.length 0) []
    (0 :: 0 :: List.replicate t.AuthCode.length 0) (by simp)
  simp only [List.nil_append, List.length_nil] at s1
  rw [s1]
  have s2 := packUint8_at_append t.PadLength 0 t.IntegrityPAD
    (0 :: List.replicate t.AuthCode.length 0)
  rw [s2]
  have s3 := packUint8_at_append t.NextHeader 0 (t.IntegrityPAD ++ [t.PadLength])
    (List.replicate t.AuthCode.length 0)
  simp only [List.append_assoc, List.singleton_append, List.length_append,
    List.length_singleton] at s3
  rw [s3]
  have s4 := packBytes_at_append t.AuthCode (List.replicate t.AuthCode.length 0)
    (t.IntegrityPAD ++ [t.PadLength, t.NextHeader]) [] (by simp)
  simp only [List.append_assoc, List.cons_append, List.nil_append, List.length_append,
    List.length_cons, List.length_singleton, List.length_nil, List.append_nil] at s4
  rw [s4]
  simp

/-- Unpacking a packed trailer that ends the buffer, from the offset where it
starts and with its own pad size, gives the trailer back. -/
theorem sessionTrailer_unpack_at_append (s0 t : SessionTrailer) (pre : List Nat)
    (hac : t.AuthCode.length ≤ 16) :
    SessionTrailer.Unpack s0 (pre ++ t.Pack) pre.length t.IntegrityPAD.length
      = (t, (pre ++ t.Pack).length, none) := by
  rw [sessionTrailer_pack_bytes]
  obtain ⟨pad, pl, nh, ac⟩ := t
  simp only at hac ⊢
  have r1 : unpackBytes (pre ++ (pad ++ [pl, nh] ++ ac)) pre.length pad.length
      = (pad, pre.length + pad.length, none) := by
    unfold unpackBytes
    rw [if_neg (by simp)]
    simp
  have r2 : unpackUint8 (pre ++ (pad ++ [pl, nh] ++ ac)) (pre.length + pad.length)
      = (pl, pre.length + pad.length + 1, none) := by
    unfold unpackUint8
    rw [if_neg (by simp; omega)]
    have : pre ++ (pad ++ [pl, nh] ++ ac) = (pre ++ pad) ++ pl :: (nh :: ac) := by simp
    rw [this, ← List.length_append, List.getD_eq_getElem?_getD,
      List.getElem?_append_right (le_refl _)]
    simp
  have r3 : unpackUint8 (pre ++ (pad ++ [pl, nh] ++ ac)) (pre.length + pad.length + 1)
      = (nh, pre.length + pad.length + 1 + 1, none) := by
    unfold unpackUint8
    rw [if_neg (by simp; omega)]
    have : pre ++ (pad ++ [pl, nh] ++ ac) = (pre ++ pad ++ [pl]) ++ nh :: ac := by simp
    have hl : pre.length + pad.length + 1 = (pre ++ pad ++ [pl]).length := by simp; omega
    rw [this, hl, List.getD_eq_getElem?_getD, List.getElem?_append_right (le_refl _)]
    simp
  have r4 : unpackBytesMost (pre ++ (pad ++ [pl, nh] ++ ac)) (pre.length + pad.length + 1 + 1) 16
      = (ac, (pre ++ (pad ++ [pl, nh] ++ ac)).length, none) := by
    unfold unpackBytesMost
    rw [if_neg (by simp; omega)]
    have : pre ++ (pad ++ [pl, nh] ++ ac) = (pre ++ pad ++ [pl, nh]) ++ ac := by simp
    have hl : pre.length + pad.length + 1 + 1 = (pre ++ pad ++ [pl, nh]).length := by simp; omega
    rw [this, hl, List.drop_left, List.take_of_length_le hac]
    simp
    omega
  simp only [SessionTrailer.Unpack, r1, r2, r3, r4]

/-! ## Claims on the session headers and the v2.0 frame -/

/-- Claim C1: SessionHeader20 round trip. For every header whose fields are in
the range of their Go types, whose PayloadType fits in 6 bits and whose OEMIANA
and OEMPayloadID are 0 whenever PayloadType is not OEM, unpacking the packed
header into a fresh header succeeds and yields the header itself. -/
theorem sessionHeader20_unpack_pack (PayloadTypeOEM : Nat) (h : SessionHeader20)
    (hw : h.WellTyped) (hp : h.PayloadType < 0x40)
    (ho : h.PayloadType ≠ PayloadTypeOEM → h.OEMIANA = 0 ∧ h.OEMPayloadID = 0) :
    SessionHeader20.Unpack PayloadTypeOEM {} (h.Pack PayloadTypeOEM) = (h, none) := by
  have key := sessionHeader20_unpack_pack_append PayloadTypeOEM h [] hw hp ho
  rwa [List.append_nil] at key

/-- Witness of C1 at an OEM header: the hypotheses hold there and the 18 packed
bytes unpack to the header. -/
theorem sessionHeader20_unpack_pack_witness :
    exampleHeaderOEM.WellTyped ∧ exampleHeaderOEM.PayloadType < 0x40 ∧
    (exampleHeaderOEM.Pack examplePayloadTypeOEM).length = 18 ∧
    SessionHeader20.Unpack examplePayloadTypeOEM {}
        (exampleHeaderOEM.Pack examplePayloadTypeOEM) = (exampleHeaderOEM, none) :=
  ⟨by decide, by decide, by decide,
    sessionHeader20_unpack_pack examplePayloadTypeOEM exampleHeaderOEM (by decide) (by decide)
      (by decide)⟩

/-- Code at the failing input of C2: a v1.5 header with AuthType none and
PayloadLength 5 packs to bytes that unpack, without error, to a header whose
PayloadLength is 0. -/
theorem sessionHeader15_unpack_pack_loses_payloadLength :
    SessionHeader15.Unpack {}
        (SessionHeader15.Pack
          { AuthType := 0, Sequence := 1, SessionID := 2, AuthCode := [], PayloadLength := 5 })
      = ({ AuthType := 0, Sequence := 1, SessionID := 2, AuthCode := [], PayloadLength := 0 },
          none) := by
  decide

/-- Claim C3: Session20 frame round trip. For every frame whose header is valid
as in C1, whose header PayloadLength is the payload's length, whose trailer is
present iff the header is authenticated with a non-zero SessionID, and whose
trailer, when present, has a pad as long as the pad size computed from the packed
header and the payload and an AuthCode of at most 16 bytes, unpacking the packed
frame into any receiver succeeds and yields the frame itself. -/
theorem session20_unpack_pack (PayloadTypeOEM : Nat)
    (genSessionTrailerPadLength : List Nat → List Nat → Nat)
    (s s0 : Session20)
    (hw : s.SessionHeader20.WellTyped) (hp : s.SessionHeader20.PayloadType < 0x40)
    (ho : s.SessionHeader20.PayloadType ≠ PayloadTypeOEM →
      s.SessionHeader20.OEMIANA = 0 ∧ s.SessionHeader20.OEMPayloadID = 0)
    (hl : s.SessionHeader20.PayloadLength = s.SessionPayload.length)
    (ht : s.SessionTrailer.isSome = true ↔
      (s.SessionHeader20.PayloadAuthenticated = true ∧ s.SessionHeader20.SessionID ≠ 0))
    (hpad : ∀ t, s.SessionTrailer = some t →
      t.IntegrityPAD.length
          = genSessionTrailerPadLength (s.SessionHeader20.Pack PayloadTypeOEM) s.SessionPayload ∧
        t.AuthCode.length ≤ 16) :
    Session20.Unpack PayloadTypeOEM genSessionTrailerPadLength s0 (s.Pack PayloadTypeOEM)
      = (s, none) := by
  obtain ⟨h, payload, trailer⟩ := s
  simp only at hw hp ho hl ht hpad
  have hlen := sessionHeader20_pack_length_eq PayloadTypeOEM h
  cases trailer with
  | none =>
    have hna : ¬ (h.PayloadAuthenticated = true ∧ h.SessionID ≠ 0) := by
      intro hc
      have := ht.2 hc
      simp at this
    have hhdr := sessionHeader20_unpack_pack_append PayloadTypeOEM h payload hw hp ho
    have hpay := unpackBytes_middle (h.Pack PayloadTypeOEM) payload []
    rw [hlen, List.append_nil] at hpay
    simp only [Session20.Unpack, Session20.Pack, hhdr, hpay, List.length_append, hlen, hl]
    rw [if_neg (by omega), if_neg hna]
  | some t =>
    have ha : h.PayloadAuthenticated = true ∧ h.SessionID ≠ 0 := ht.1 rfl
    obtain ⟨hp1, hp2⟩ := hpad t rfl
    have hhdr := sessionHeader20_unpack_pack_append PayloadTypeOEM h (payload ++ t.Pack) hw hp ho
    have hpay := unpackBytes_middle (h.Pack PayloadTypeOEM) payload t.Pack
    rw [hlen] at hpay
    have htr := sessionTrailer_unpack_at_append {} t (h.Pack PayloadTypeOEM ++ payload) hp2
    rw [List.length_append, hlen, hp1, List.append_assoc] at htr
    simp only [Session20.Unpack, Session20.Pack, List.append_assoc, hhdr, hpay, htr,
      List.length_append, hlen, hl]
    rw [if_neg (by omega), if_pos ha]

/-- Witness of C3 at an authenticated frame with a trailer: its 30 packed bytes
unpack to the frame. -/
theorem session20_unpack_pack_witness :
    exampleSession.SessionHeader20.WellTyped ∧
    exampleSession.SessionTrailer.isSome = true ∧
    (exampleSession.Pack examplePayloadTypeOEM).length = 30 ∧
    Session20.Unpack examplePayloadTypeOEM examplePadLength {}
        (exampleSession.Pack examplePayloadTypeOEM) = (exampleSession, none) :=
  ⟨by decide, by decide, by decide,
    session20_unpack_pack examplePayloadTypeOEM examplePadLength exampleSession {}
      (by decide) (by decide) (by decide) (by decide) (by decide)
      (by
        intro t ht
        cases ht
        decide)⟩

/-- A successful parse of a v2.0 header takes PayloadAuthenticated from bit 6 of
byte 1 and SessionID from the four bytes at offset 8 (OEM) or 2. -/
theorem sessionHeader20_unpack_auth_sid (oem : Nat) (h : SessionHeader20) (msg : List Nat)
    (hok : (SessionHeader20.Unpack oem h msg).2 = none) :
    (SessionHeader20.Unpack oem h msg).1.PayloadAuthenticated = (msg.getD 1 0).testBit 6 ∧
    (SessionHeader20.Unpack oem h msg).1.SessionID
      = (unpackUint32L msg (if msg.getD 1 0 &&& 0x3f = oem then 8 else 2)).1 := by
  by_cases hlen : msg.length < 12
  · simp [SessionHeader20.Unpack, SessionHeader20SizeMin, hlen] at hok
  · have hb : (unpackUint8 msg 1).1 = msg.getD 1 0 := unpackUint8_fst msg 1 (by omega)
    have b6 := testBit_of_mask (msg.getD 1 0) 6
    simp only [SessionHeader20.Unpack, SessionHeader20SizeMin, SessionHeader20SizeMax, hb]
      at hok ⊢
    generalize msg.getD 1 0 = b at *
    norm_num at b6
    by_cases hoem : b &&& 0x3f = oem
    · by_cases hlen2 : msg.length < 18
      · simp [hlen, hlen2, hoem] at hok
      · simp [hlen, hlen2, hoem, b6]
    · simp [hlen, hoem, b6]

/-- Claim C4: trailer presence law on parse. Whenever Session20.Unpack of a
buffer returns no error, the header of the result is the header parsed from the
buffer, and the trailer of the result is present if and only if that header has
PayloadAuthenticated set and a non-zero SessionID, that is, bit 6 of byte 1 is
set and the four SessionID bytes (at offset 8 for an OEM payload type, else 2)
are not all zero; a trailer that is present is the one parsed from the buffer
right after the payload. -/
theorem session20_unpack_trailer_iff (PayloadTypeOEM : Nat)
    (genSessionTrailerPadLength : List Nat → List Nat → Nat)
    (s : Session20) (msg : List Nat)
    (hok : (Session20.Unpack PayloadTypeOEM genSessionTrailerPadLength s msg).2 = none) :
    (Session20.Unpack PayloadTypeOEM genSessionTrailerPadLength s msg).1.SessionHeader20
      = (SessionHeader20.Unpack PayloadTypeOEM {} msg).1 ∧
    ((Session20.Unpack PayloadTypeOEM genSessionTrailerPadLength s msg).1.SessionTrailer.isSome
        = true ↔
      ((SessionHeader20.Unpack PayloadTypeOEM {} msg).1.PayloadAuthenticated = true ∧
       (SessionHeader20.Unpack PayloadTypeOEM {} msg).1.SessionID ≠ 0)) ∧
    ((Session20.Unpack PayloadTypeOEM genSessionTrailerPadLength s msg).1.SessionTrailer.isSome
        = true ↔
      ((msg.getD 1 0).testBit 6 = true ∧
       (unpackUint32L msg (if msg.getD 1 0 &&& 0x3f = PayloadTypeOEM then 8 else 2)).1 ≠ 0)) ∧
    (∀ t,
      (Session20.Unpack PayloadTypeOEM genSessionTrailerPadLength s msg).1.SessionTrailer
          = some t →
        t = (SessionTrailer.Unpack {} msg
              ((if (SessionHeader20.Unpack PayloadTypeOEM {} msg).1.PayloadType = PayloadTypeOEM
                  then 18 else 12)
                + (SessionHeader20.Unpack PayloadTypeOEM {} msg).1.PayloadLength)
              (genSessionTrailerPadLength
                ((SessionHeader20.Unpack PayloadTypeOEM {} msg).1.Pack PayloadTypeOEM)
                (Session20.Unpack PayloadTypeOEM genSessionTrailerPadLength s
                  msg).1.SessionPayload)).1) := by
  have herr : ∀ a b c d, (SessionTrailer.Unpack a b c d).2.2 = none := fun _ _ _ _ => rfl
  have hfields := sessionHeader20_unpack_auth_sid PayloadTypeOEM {} msg
  generalize (msg.getD 1 0).testBit 6 = bit6 at hfields ⊢
  generalize (unpackUint32L msg (if msg.getD 1 0 &&& 0x3f = PayloadTypeOEM then 8 else 2)).1
    = sid at hfields ⊢
  unfold Session20.Unpack at hok ⊢
  generalize SessionHeader20.Unpack PayloadTypeOEM {} msg = r at hok hfields ⊢
  obtain ⟨hdr, e⟩ := r
  cases e with
  | some err => simp at hok
  | none =>
    obtain ⟨hauth, hsid⟩ := hfields rfl
    simp only [] at hok hauth hsid ⊢
    simp only [SessionHeader20SizeMax, SessionHeader20SizeMin] at hok ⊢
    generalize (if hdr.PayloadType = PayloadTypeOEM then 18 else 12) = hs at hok ⊢
    by_cases hlen : msg.length < hs + hdr.PayloadLength
    · rw [if_pos hlen] at hok
      simp at hok
    · rw [if_neg hlen]
      by_cases hc : hdr.PayloadAuthenticated = true ∧ hdr.SessionID ≠ 0
      · rw [if_pos hc]
        simp only [herr]
        refine ⟨trivial, ?_, ?_, ?_⟩
        · simpa using hc
        · rw [← hauth, ← hsid]
          simpa using hc
        · intro t ht
          simp only [Option.some.injEq] at ht
          exact ht.symm
      · rw [if_neg hc]
        refine ⟨rfl, ?_, ?_, ?_⟩
        · simpa using hc
        · rw [← hauth, ← hsid]
          simpa using hc
        · intro t ht
          simp at ht

/-- Witness of C4 at the 30 bytes of an authenticated frame: the parse succeeds,
the trailer is present, and the law gives the authenticated flag and non-zero
session id of the header parsed from those bytes. -/
theorem session20_unpack_trailer_iff_witness :
    (Session20.Unpack examplePayloadTypeOEM examplePadLength {}
        (exampleSession.Pack examplePayloadTypeOEM)).2 = none ∧
    (Session20.Unpack examplePayloadTypeOEM examplePadLength {}
        (exampleSession.Pack examplePayloadTypeOEM)).1.SessionTrailer.isSome = true ∧
    ((SessionHeader20.Unpack examplePayloadTypeOEM {}
        (exampleSession.Pack examplePayloadTypeOEM)).1.PayloadAuthenticated = true ∧
     (SessionHeader20.Unpack examplePayloadTypeOEM {}
        (exampleSession.Pack examplePayloadTypeOEM)).1.SessionID ≠ 0) :=
  ⟨by decide, by decide,
    (session20_unpack_trailer_iff examplePayloadTypeOEM examplePadLength {}
      (exampleSession.Pack examplePayloadTypeOEM) (by decide)).2.1.1 (by decide)⟩

/-- Claim C5: v2.0 header size law. For every header, with no condition on any
field, the packed header has exactly 18 bytes when PayloadType is OEM and exactly
12 bytes otherwise. -/
theorem sessionHeader20_pack_length (PayloadTypeOEM : Nat) (h : SessionHeader20) :
    (h.Pack PayloadTypeOEM).length = if h.PayloadType = PayloadTypeOEM then 18 else 12 := by
  rw [sessionHeader20_pack_bytes]
  split <;> rfl

/-- Claim C7: v2.0 header wire layout. For every header whose fields are in the
range of their Go types, the packed header is: byte 0 the AuthType, byte 1 the
two flag bits or-ed with the PayloadType, then, for an OEM payload type, OEMIANA
as 4 and OEMPayloadID as 2 little-endian bytes at offsets 2 and 6 followed by
SessionID, Sequence and PayloadLength little-endian at offsets 8, 12 and 16, and
otherwise SessionID, Sequence and PayloadLength little-endian at offsets 2, 6
and 10. -/
theorem sessionHeader20_pack_layout (PayloadTypeOEM : Nat) (h : SessionHeader20)
    (hw : h.WellTyped) :
    h.Pack PayloadTypeOEM =
      if h.PayloadType = PayloadTypeOEM then
        [h.AuthType,
         (if h.PayloadEncrypted then 0x80 else 0) ||| (if h.PayloadAuthenticated then 0x40 else 0)
           ||| h.PayloadType,
         h.OEMIANA % 256, h.OEMIANA / 256 % 256, h.OEMIANA / 65536 % 256, h.OEMIANA / 16777216,
         h.OEMPayloadID % 256, h.OEMPayloadID / 256,
         h.SessionID % 256, h.SessionID / 256 % 256, h.SessionID / 65536 % 256,
         h.SessionID / 16777216,
         h.Sequence % 256, h.Sequence / 256 % 256, h.Sequence / 65536 % 256,
         h.Sequence / 16777216,
         h.PayloadLength % 256, h.PayloadLength / 256]
      else
        [h.AuthType,
         (if h.PayloadEncrypted then 0x80 else 0) ||| (if h.PayloadAuthenticated then 0x40 else 0)
           ||| h.PayloadType,
         h.SessionID % 256, h.SessionID / 256 % 256, h.SessionID / 65536 % 256,
         h.SessionID / 16777216,
         h.Sequence % 256, h.Sequence / 256 % 256, h.Sequence / 65536 % 256,
         h.Sequence / 16777216,
         h.PayloadLength % 256, h.PayloadLength / 256] := by
  obtain ⟨h1, h2, h3, h4, h5, h6, h7⟩ := hw
  rw [sessionHeader20_pack_bytes, Nat.mod_eq_of_lt h1, Nat.mod_eq_of_lt h2]
  have e1 : h.OEMIANA / 16777216 % 256 = h.OEMIANA / 16777216 := by omega
  have e2 : h.OEMPayloadID / 256 % 256 = h.OEMPayloadID / 256 := by omega
  have e3 : h.SessionID / 16777216 % 256 = h.SessionID / 16777216 := by omega
  have e4 : h.Sequence / 16777216 % 256 = h.Sequence / 16777216 := by omega
  have e5 : h.PayloadLength / 256 % 256 = h.PayloadLength / 256 := by omega
  rw [e1, e2, e3, e4, e5]

/-- Witness of C7 at an OEM header with a 6-bit payload type: the 18 bytes. -/
theorem sessionHeader20_pack_layout_witness :
    exampleHeaderOEM.WellTyped ∧ exampleHeaderOEM.PayloadType < 0x40 ∧
    exampleHeaderOEM.Pack examplePayloadTypeOEM =
      [0x06, 0xC2, 0xA2, 0x02, 0x00, 0x00, 0x34, 0x12, 0xD4, 0xC3, 0xB2, 0xA1,
       0x07, 0x00, 0x00, 0x00, 0x02, 0x01] :=
  ⟨by decide, by decide,
    (sessionHeader20_pack_layout examplePayloadTypeOEM exampleHeaderOEM (by decide)).trans
      (by decide)⟩

/-- Code at the failing input of C8: a v1.5 header with AuthType none, no auth
code and PayloadLength 7 packs to 10 bytes whose last byte is 0, not 7. -/
theorem sessionHeader15_pack_last_byte_zero :
    SessionHeader15.Pack
        { AuthType := 0, Sequence := 0x04030201, SessionID := 0x08070605, AuthCode := [],
          PayloadLength := 7 }
      = [0x00, 0x01, 0x02, 0x03, 0x04, 0x05, 0x06, 0x07, 0x08, 0x00] := by
  decide

/-- Claim C9: v2.0 header short-buffer rejection. For every buffer and receiver,
SessionHeader20.Unpack returns ErrUnpackedDataTooShort if and only if the buffer
has fewer than 12 bytes, or fewer than 18 bytes while the low 6 bits of byte 1
are the OEM payload type; in every other case it returns no error, with
PayloadType the low 6 bits of byte 1, PayloadEncrypted bit 7 and
PayloadAuthenticated bit 6 of byte 1. -/
theorem sessionHeader20_unpack_short_buffer (PayloadTypeOEM : Nat) (h : SessionHeader20)
    (msg : List Nat) :
    ((SessionHeader20.Unpack PayloadTypeOEM h msg).2 = some ErrUnpackedDataTooShort ↔
        (msg.length < 12 ∨ (msg.length < 18 ∧ msg.getD 1 0 &&& 0x3f = PayloadTypeOEM))) ∧
    ((msg.length < 12 ∨ (msg.length < 18 ∧ msg.getD 1 0 &&& 0x3f = PayloadTypeOEM)) ∨
      ((SessionHeader20.Unpack PayloadTypeOEM h msg).2 = none ∧
       (SessionHeader20.Unpack PayloadTypeOEM h msg).1.PayloadType = msg.getD 1 0 &&& 0x3f ∧
       (SessionHeader20.Unpack PayloadTypeOEM h msg).1.PayloadEncrypted
          = (msg.getD 1 0).testBit 7 ∧
       (SessionHeader20.Unpack PayloadTypeOEM h msg).1.PayloadAuthenticated
          = (msg.getD 1 0).testBit 6)) := by
  by_cases hlen : msg.length < 12
  · simp [SessionHeader20.Unpack, SessionHeader20SizeMin, hlen]
  · have hb : (unpackUint8 msg 1).1 = msg.getD 1 0 := unpackUint8_fst msg 1 (by omega)
    have b7 := testBit_of_mask (msg.getD 1 0) 7
    have b6 := testBit_of_mask (msg.getD 1 0) 6
    simp only [SessionHeader20.Unpack, SessionHeader20SizeMin, SessionHeader20SizeMax, hb]
    generalize msg.getD 1 0 = b at *
    norm_num at b7 b6
    by_cases hoem : b &&& 0x3f = PayloadTypeOEM
    · by_cases hlen2 : msg.length < 18
      · simp [hlen, hlen2, hoem]
      · simp [hlen, hlen2, hoem, b7, b6]
    · simp [hlen, hoem, b7, b6]

/-- Claim C10: v1.5 header short-buffer rejection and offsets. For every buffer
and receiver, SessionHeader15.Unpack returns ErrUnpackedDataTooShort if and only
if the buffer has fewer than 10 bytes, or byte 0 is not 0 and the buffer has
fewer than 26 bytes; in every other case it returns no error with AuthType byte
0 and, if byte 0 is 0, PayloadLength byte 9 and the receiver's AuthCode left as
it was, and otherwise AuthCode the 16 bytes at offsets 9 to 24 and PayloadLength
byte 25. -/
theorem sessionHeader15_unpack_short_buffer (h : SessionHeader15) (msg : List Nat) :
    ((SessionHeader15.Unpack h msg).2 = some ErrUnpackedDataTooShort ↔
        (msg.length < 10 ∨ (msg.getD 0 0 ≠ 0 ∧ msg.length < 26))) ∧
    ((msg.length < 10 ∨ (msg.getD 0 0 ≠ 0 ∧ msg.length < 26)) ∨
      ((SessionHeader15.Unpack h msg).2 = none ∧
       (SessionHeader15.Unpack h msg).1.AuthType = msg.getD 0 0 ∧
       if msg.getD 0 0 = 0 then
         (SessionHeader15.Unpack h msg).1.PayloadLength = msg.getD 9 0 ∧
         (SessionHeader15.Unpack h msg).1.AuthCode = h.AuthCode
       else
         (SessionHeader15.Unpack h msg).1.AuthCode = (msg.drop 9).take 16 ∧
         (SessionHeader15.Unpack h msg).1.AuthCode.length = 16 ∧
         (SessionHeader15.Unpack h msg).1.PayloadLength = msg.getD 25 0)) := by
  by_cases hlen : msg.length < 10
  · simp [SessionHeader15.Unpack, SessionHeader15SizeMin, hlen]
  · have hb : (unpackUint8 msg 0).1 = msg.getD 0 0 := unpackUint8_fst msg 0 (by omega)
    have h9 : (unpackUint8 msg 9).1 = msg.getD 9 0 := unpackUint8_fst msg 9 (by omega)
    simp only [SessionHeader15.Unpack, SessionHeader15SizeMin, SessionHeader15SizeMax,
      AuthTypeNone, hb, h9]
    by_cases hz : msg.getD 0 0 = 0
    · generalize msg.getD 0 0 = b at *
      generalize msg.getD 9 0 = c at *
      simp [hlen, hz]
    · by_cases hlen2 : msg.length < 26
      · generalize msg.getD 0 0 = b at *
        simp [hlen, hz, hlen2]
      · have h25 : (unpackUint8 msg 25).1 = msg.getD 25 0 := unpackUint8_fst msg 25 (by omega)
        have hac : (unpackBytes msg 9 16).1 = (msg.drop 9).take 16 := by
          unfold unpackBytes
          rw [if_neg (by omega)]
        simp only [h25, hac]
        generalize msg.getD 0 0 = b at *
        generalize msg.getD 25 0 = c at *
        simp [hlen, hz, hlen2]
        omega

/-! ## Helper lemmas: decomposition and frame generation -/

/-- The error returned by `SessionTrailer.Unpack` is nil on every input. -/
theorem sessionTrailer_unpack_no_error (s : SessionTrailer) (msg : List Nat) (off padSize : Nat) :
    (SessionTrailer.Unpack s msg off padSize).2.2 = none := rfl

/-- The length of a packed v1.5 header is 10 plus the length of its auth code. -/
theorem sessionHeader15_pack_length_general (h : SessionHeader15) :
    h.Pack.length = 10 + h.AuthCode.length := by
  rw [sessionHeader15_pack_bytes]
  split <;> simp <;> omega

/-- Re-packing a v1.5 header parsed into a fresh header gives 26 bytes when byte
0 of the buffer is not 0 and 10 bytes otherwise. -/
theorem sessionHeader15_unpack_fresh_pack_length (msg : List Nat)
    (hok : (SessionHeader15.Unpack {} msg).2 = none) :
    (SessionHeader15.Unpack {} msg).1.Pack.length = if msg.getD 0 0 ≠ 0 then 26 else 10 := by
  rw [sessionHeader15_pack_length_general]
  by_cases hlen : msg.length < 10
  · simp [SessionHeader15.Unpack, SessionHeader15SizeMin, hlen] at hok
  · have hb : (unpackUint8 msg 0).1 = msg.getD 0 0 := unpackUint8_fst msg 0 (by omega)
    simp only [SessionHeader15.Unpack, SessionHeader15SizeMin, SessionHeader15SizeMax,
      AuthTypeNone, hb] at hok ⊢
    by_cases hz : msg.getD 0 0 = 0
    · generalize msg.getD 0 0 = b at *
      simp [hlen, hz]
    · by_cases hlen2 : msg.length < 26
      · generalize msg.getD 0 0 = b at *
        simp [hlen, hz, hlen2] at hok
      · have hac : (unpackBytes msg 9 16).1 = (msg.drop 9).take 16 := by
          unfold unpackBytes
          rw [if_neg (by omega)]
        simp only [hac]
        generalize msg.getD 0 0 = b at *
        simp [hlen, hz, hlen2]
        omega

/-- An in-bounds strict-length read returns the requested slice, of the
requested length. -/
theorem unpackBytes_fst_of_le (msg : List Nat) (off n : Nat) (hle : off + n ≤ msg.length) :
    (unpackBytes msg off n).1 = (msg.drop off).take n ∧ (unpackBytes msg off n).1.length = n := by
  unfold unpackBytes
  rw [if_neg (by omega)]
  simp
  omega

/-- A 6-bit value has bits 7 and 6 clear. -/
theorem sixBit_flags_clear (p : Nat) (hp : p < 64) : p &&& 0xC0 = 0 := by
  revert p
  decide

/-- The last two bytes of a packed v2.0 header are the payload length,
little-endian. -/
theorem sessionHeader20_pack_last_two (oem : Nat) (h : SessionHeader20) :
    (h.Pack oem).drop ((h.Pack oem).length - 2)
      = [h.PayloadLength % 256, h.PayloadLength / 256 % 256] := by
  rw [sessionHeader20_pack_bytes]
  split <;> simp

/-- Outside state Active, `genSession20` returns an unprotected frame, whatever
the collaborators are. -/
theorem genSession20_not_active (oem : Nat)
    (enc : Client → List Nat → List Nat → Except IpmiError (List Nat))
    (tr : Client → List Nat → List Nat → Except IpmiError SessionTrailer)
    (c : Client) (payloadType : Nat) (rawPayload : List Nat)
    (hst : c.session.v20.state ≠ SessionStateActive) :
    Client.genSession20 oem enc tr c payloadType rawPayload =
      Except.ok
        { SessionHeader20 :=
            { AuthType := AuthTypeRMCPPlus, PayloadEncrypted := false,
              PayloadAuthenticated := false, PayloadType := payloadType, OEMIANA := 0,
              OEMPayloadID := 0, SessionID := 0, Sequence := 0,
              PayloadLength := rawPayload.length % 65536 }
          SessionPayload := rawPayload
          SessionTrailer := none } := by
  simp [Client.genSession20, hst]

/-- In state Active with a successful encryption, `genSession20` returns the
protected frame, with a trailer from the integrity collaborator when the session
id is not 0. -/
theorem genSession20_active (oem : Nat)
    (enc : Client → List Nat → List Nat → Except IpmiError (List Nat))
    (tr : Client → List Nat → List Nat → Except IpmiError SessionTrailer)
    (c : Client) (payloadType : Nat) (rawPayload e : List Nat)
    (hst : c.session.v20.state = SessionStateActive)
    (henc : enc c rawPayload [] = Except.ok e) :
    Client.genSession20 oem enc tr c payloadType rawPayload =
      if c.session.v20.bmcSessionID ≠ 0 then
        match tr c
            (SessionHeader20.Pack oem
              { AuthType := AuthTypeRMCPPlus, PayloadEncrypted := true,
                PayloadAuthenticated := true, PayloadType := payloadType, OEMIANA := 0,
                OEMPayloadID := 0, SessionID := c.session.v20.bmcSessionID,
                Sequence := c.session.v20.sequence, PayloadLength := e.length % 65536 }) e with
        | Except.error err =>
          Except.error (IpmiError.Errorf "genSessionTrailer failed, err: %s" err)
        | Except.ok t =>
          Except.ok
            { SessionHeader20 :=
                { AuthType := AuthTypeRMCPPlus, PayloadEncrypted := true,
                  PayloadAuthenticated := true, PayloadType := payloadType, OEMIANA := 0,
                  OEMPayloadID := 0, SessionID := c.session.v20.bmcSessionID,
                  Sequence := c.session.v20.sequence, PayloadLength := e.length % 65536 }
              SessionPayload := e
              SessionTrailer := some t }
      else
        Except.ok
          { SessionHeader20 :=
              { AuthType := AuthTypeRMCPPlus, PayloadEncrypted := true,
                PayloadAuthenticated := true, PayloadType := payloadType, OEMIANA := 0,
                OEMPayloadID := 0, SessionID := c.session.v20.bmcSessionID,
                Sequence := c.session.v20.sequence, PayloadLength := e.length % 65536 }
            SessionPayload := e
            SessionTrailer := none } := by
  simp only [Client.genSession20, hst, henc]
  by_cases hb : c.session.v20.bmcSessionID = 0
  · simp [hb]
  · simp [hb]

/-- In state Active with a failing encryption, `genSession20` fails. -/
theorem genSession20_active_encrypt_error (oem : Nat)
    (enc : Client → List Nat → List Nat → Except IpmiError (List Nat))
    (tr : Client → List Nat → List Nat → Except IpmiError SessionTrailer)
    (c : Client) (payloadType : Nat) (rawPayload : List Nat) (err : IpmiError)
    (hst : c.session.v20.state = SessionStateActive)
    (henc : enc c rawPayload [] = Except.error err) :
    Client.genSession20 oem enc tr c payloadType rawPayload =
      Except.error (IpmiError.Errorf "encrypt payload failed, err: %s" err) := by
  simp [Client.genSession20, hst, henc]

/-- The frame built by `genSession15`, by cases on the v1.5 session. -/
theorem genSession15_eq (g : Client → List Nat → List Nat) (c : Client) (rawPayload : List Nat) :
    Client.genSession15 g c rawPayload =
      Except.ok
        { SessionHeader15 :=
            if c.session.v15.active = true ∧ c.session.authType ≠ AuthTypeNone then
              { AuthType := c.session.authType, Sequence := c.session.v15.inSeq,
                SessionID := c.session.v15.sessionID, AuthCode := g c rawPayload,
                PayloadLength := rawPayload.length % 256 }
            else
              { AuthType := AuthTypeNone, Sequence := 0, SessionID := 0, AuthCode := [],
                PayloadLength := rawPayload.length % 256 }
          Payload := rawPayload
          LegacyPAD := 0 } := rfl

/-! ## Claims on frame decomposition, frame generation and the trailer -/

/-- Code at the failing input of C11: with nothing left in the buffer,
SessionTrailer.Unpack returns no error, and Session20.Unpack of a 12-byte
authenticated header with session id 1 and no trailer bytes returns no error
and a trailer. -/
theorem sessionTrailer_unpack_truncated_no_error :
    (SessionTrailer.Unpack {} [] 0 0).2.2 = none ∧
    (Session20.Unpack examplePayloadTypeOEM examplePadLength {}
        [0x06, 0x40, 1, 0, 0, 0, 0, 0, 0, 0, 0, 0]).2 = none ∧
    (Session20.Unpack examplePayloadTypeOEM examplePadLength {}
        [0x06, 0x40, 1, 0, 0, 0, 0, 0, 0, 0, 0, 0]).1.SessionTrailer.isSome = true := by
  decide

/-- Claim C12: Session20 decomposition. For every buffer and receiver, with the
header parsed from the buffer into a fresh header, hs = 18 if its PayloadType is
OEM and 12 otherwise, and n its PayloadLength: Session20.Unpack returns an error
exactly when SessionHeader20.Unpack does or the buffer has fewer than hs + n
bytes; otherwise SessionPayload is the n bytes of the buffer from offset hs. -/
theorem session20_unpack_decomposition (PayloadTypeOEM : Nat)
    (genSessionTrailerPadLength : List Nat → List Nat → Nat)
    (s : Session20) (msg : List Nat) :
    ((Session20.Unpack PayloadTypeOEM genSessionTrailerPadLength s msg).2 ≠ none ↔
      ((SessionHeader20.Unpack PayloadTypeOEM {} msg).2 ≠ none ∨
        msg.length <
          (if (SessionHeader20.Unpack PayloadTypeOEM {} msg).1.PayloadType = PayloadTypeOEM
            then 18 else 12)
          + (SessionHeader20.Unpack PayloadTypeOEM {} msg).1.PayloadLength)) ∧
    ((Session20.Unpack PayloadTypeOEM genSessionTrailerPadLength s msg).2 ≠ none ∨
      ((Session20.Unpack PayloadTypeOEM genSessionTrailerPadLength s msg).1.SessionPayload
          = (msg.drop
              (if (SessionHeader20.Unpack PayloadTypeOEM {} msg).1.PayloadType = PayloadTypeOEM
                then 18 else 12)).take
              (SessionHeader20.Unpack PayloadTypeOEM {} msg).1.PayloadLength ∧
       (Session20.Unpack PayloadTypeOEM genSessionTrailerPadLength s msg).1.SessionPayload.length
          = (SessionHeader20.Unpack PayloadTypeOEM {} msg).1.PayloadLength)) := by
  unfold Session20.Unpack
  generalize SessionHeader20.Unpack PayloadTypeOEM {} msg = r
  obtain ⟨hdr, e⟩ := r
  cases e with
  | some err => simp
  | none =>
    simp only [SessionHeader20SizeMax, SessionHeader20SizeMin]
    generalize (if hdr.PayloadType = PayloadTypeOEM then 18 else 12) = hs
    by_cases hlen : msg.length < hs + hdr.PayloadLength
    · simp [hlen]
    · obtain ⟨p1, p2⟩ := unpackBytes_fst_of_le msg hs hdr.PayloadLength (by omega)
      by_cases hc : hdr.PayloadAuthenticated = true ∧ hdr.SessionID ≠ 0
      · simp only [if_neg hlen, if_pos hc, sessionTrailer_unpack_no_error]
        simp [hlen, p1, p2]
        omega
      · simp only [if_neg hlen, if_neg hc]
        simp [hlen, p1, p2]
        omega

/-- Claim C13: Session15 decomposition. For every buffer and receiver, with the
header parsed from the buffer into a fresh header, hs = 26 if byte 0 is not 0 and
10 otherwise, and n its PayloadLength: Session15.Unpack returns an error exactly
when SessionHeader15.Unpack does or the buffer has fewer than hs + n bytes;
otherwise Payload is the n bytes of the buffer from offset hs, and hs is the
length of the re-packed parsed header. -/
theorem session15_unpack_decomposition (s : Session15) (msg : List Nat) :
    ((Session15.Unpack s msg).2 ≠ none ↔
      ((SessionHeader15.Unpack {} msg).2 ≠ none ∨
        msg.length < (if msg.getD 0 0 ≠ 0 then 26 else 10)
          + (SessionHeader15.Unpack {} msg).1.PayloadLength)) ∧
    ((Session15.Unpack s msg).2 ≠ none ∨
      ((Session15.Unpack s msg).1.Payload
          = (msg.drop (if msg.getD 0 0 ≠ 0 then 26 else 10)).take
              (SessionHeader15.Unpack {} msg).1.PayloadLength ∧
       (Session15.Unpack s msg).1.Payload.length
          = (SessionHeader15.Unpack {} msg).1.PayloadLength ∧
       (SessionHeader15.Unpack {} msg).1.Pack.length
          = (if msg.getD 0 0 ≠ 0 then 26 else 10))) := by
  have hsz := sessionHeader15_unpack_fresh_pack_length msg
  unfold Session15.Unpack
  generalize (if msg.getD 0 0 ≠ 0 then 26 else 10) = hs at hsz ⊢
  generalize SessionHeader15.Unpack {} msg = r at hsz ⊢
  obtain ⟨hdr, e⟩ := r
  cases e with
  | some err => simp
  | none =>
    have hsz2 : hdr.Pack.length = hs := hsz rfl
    simp only [hsz2]
    by_cases hlen : msg.length < hs + hdr.PayloadLength
    · simp [hlen]
    · obtain ⟨p1, p2⟩ := unpackBytes_fst_of_le msg hs hdr.PayloadLength (by omega)
      simp only [if_neg hlen]
      simp [hlen, p1, p2]
      omega

/-- Claim C14: handshake frames are unprotected. For every session context whose
v2.0 state is not Active, every payload type and raw payload and every pair of
collaborators, genSession20 succeeds with AuthType RMCPPlus, both flags clear,
SessionID 0, Sequence 0, the raw payload unchanged, PayloadLength
len(rawPayload) mod 2^16 and no trailer; the result is the same for every other
pair of collaborators; and for a non-OEM 6-bit payload type the packed header is
12 bytes with byte 0 = 0x06 and byte 1 the payload type, bits 7 and 6 clear. -/
theorem genSession20_handshake_unprotected (PayloadTypeOEM : Nat)
    (encryptPlayload : Client → List Nat → List Nat → Except IpmiError (List Nat))
    (genSessionTrailer : Client → List Nat → List Nat → Except IpmiError SessionTrailer)
    (c : Client) (payloadType : Nat) (rawPayload : List Nat)
    (hst : c.session.v20.state ≠ SessionStateActive) :
    Client.genSession20 PayloadTypeOEM encryptPlayload genSessionTrailer c payloadType rawPayload
      = Except.ok
          { SessionHeader20 :=
              { AuthType := AuthTypeRMCPPlus, PayloadEncrypted := false,
                PayloadAuthenticated := false, PayloadType := payloadType, OEMIANA := 0,
                OEMPayloadID := 0, SessionID := 0, Sequence := 0,
                PayloadLength := rawPayload.length % 65536 }
            SessionPayload := rawPayload
            SessionTrailer := none } ∧
    (∀ (enc2 : Client → List Nat → List Nat → Except IpmiError (List Nat))
        (tr2 : Client → List Nat → List Nat → Except IpmiError SessionTrailer),
      Client.genSession20 PayloadTypeOEM enc2 tr2 c payloadType rawPayload
        = Client.genSession20 PayloadTypeOEM encryptPlayload genSessionTrailer c payloadType
            rawPayload) ∧
    ((payloadType ≠ PayloadTypeOEM ∧ payloadType < 0x40) →
      SessionHeader20.Pack PayloadTypeOEM
          { AuthType := AuthTypeRMCPPlus, PayloadEncrypted := false,
            PayloadAuthenticated := false, PayloadType := payloadType, OEMIANA := 0,
            OEMPayloadID := 0, SessionID := 0, Sequence := 0,
            PayloadLength := rawPayload.length % 65536 }
        = [0x06, payloadType, 0, 0, 0, 0, 0, 0, 0, 0,
            rawPayload.length % 65536 % 256, rawPayload.length % 65536 / 256] ∧
      payloadType &&& 0xC0 = 0) := by
  refine ⟨genSession20_not_active _ _ _ c payloadType rawPayload hst, ?_, ?_⟩
  · intro enc2 tr2
    rw [genSession20_not_active _ enc2 tr2 c payloadType rawPayload hst,
      genSession20_not_active _ encryptPlayload genSessionTrailer c payloadType rawPayload hst]
  · rintro ⟨hne, hlt⟩
    constructor
    · rw [sessionHeader20_pack_bytes]
      simp only [hne, if_false, AuthTypeRMCPPlus]
      have h1 : payloadType % 256 = payloadType := Nat.mod_eq_of_lt (by omega)
      have h2 : rawPayload.length % 65536 / 256 % 256 = rawPayload.length % 65536 / 256 := by
        omega
      simp [h1, h2]
    · exact sixBit_flags_clear payloadType hlt

/-- Witness of C14 before the handshake, with collaborators that always fail and
payload type 0x10: the frame is built and its header packs to the 12 bytes. -/
theorem genSession20_handshake_unprotected_witness :
    exampleClientPreSession.session.v20.state ≠ SessionStateActive ∧
    Client.genSession20 examplePayloadTypeOEM exampleEncryptFails exampleTrailerFails
        exampleClientPreSession 0x10 [1, 2, 3]
      = Except.ok
          { SessionHeader20 :=
              { AuthType := 0x06, PayloadEncrypted := false, PayloadAuthenticated := false,
                PayloadType := 0x10, OEMIANA := 0, OEMPayloadID := 0, SessionID := 0,
                Sequence := 0, PayloadLength := 3 }
            SessionPayload := [1, 2, 3]
            SessionTrailer := none } ∧
    SessionHeader20.Pack examplePayloadTypeOEM
        { AuthType := 0x06, PayloadEncrypted := false, PayloadAuthenticated := false,
          PayloadType := 0x10, OEMIANA := 0, OEMPayloadID := 0, SessionID := 0,
          Sequence := 0, PayloadLength := 3 }
      = [0x06, 0x10, 0, 0, 0, 0, 0, 0, 0, 0, 3, 0] :=
  ⟨by decide,
    (genSession20_handshake_unprotected examplePayloadTypeOEM exampleEncryptFails
      exampleTrailerFails exampleClientPreSession 0x10 [1, 2, 3] (by decide)).1,
    ((genSession20_handshake_unprotected examplePayloadTypeOEM exampleEncryptFails
      exampleTrailerFails exampleClientPreSession 0x10 [1, 2, 3] (by decide)).2.2
        ⟨by decide, by decide⟩).1⟩

/-- Claim C15: sequencing in state Active. For every session context in state
Active, every payload type and raw payload, when the encryption collaborator
returns bytes e and the trailer collaborator succeeds on e, genSession20
succeeds and its frame has both flags set, header SessionID the context's
bmcSessionID and header Sequence the context's sequence value. -/
theorem genSession20_active_sequencing (PayloadTypeOEM : Nat)
    (encryptPlayload : Client → List Nat → List Nat → Except IpmiError (List Nat))
    (genSessionTrailer : Client → List Nat → List Nat → Except IpmiError SessionTrailer)
    (c : Client) (payloadType : Nat) (rawPayload e : List Nat)
    (hst : c.session.v20.state = SessionStateActive)
    (henc : encryptPlayload c rawPayload [] = Except.ok e)
    (htr : ∀ sessionHeaderBytes, ∃ t, genSessionTrailer c sessionHeaderBytes e = Except.ok t) :
    ∃ frame,
      Client.genSession20 PayloadTypeOEM encryptPlayload genSessionTrailer c payloadType
          rawPayload = Except.ok frame ∧
      frame.SessionHeader20.PayloadAuthenticated = true ∧
      frame.SessionHeader20.PayloadEncrypted = true ∧
      frame.SessionHeader20.SessionID = c.session.v20.bmcSessionID ∧
      frame.SessionHeader20.Sequence = c.session.v20.sequence := by
  rw [genSession20_active PayloadTypeOEM encryptPlayload genSessionTrailer c payloadType
    rawPayload e hst henc]
  by_cases hb : c.session.v20.bmcSessionID = 0
  · rw [if_neg (by simpa using hb)]
    exact ⟨_, rfl, rfl, rfl, rfl, rfl⟩
  · rw [if_pos hb]
    obtain ⟨t, ht⟩ := htr (SessionHeader20.Pack PayloadTypeOEM
      { AuthType := AuthTypeRMCPPlus, PayloadEncrypted := true,
        PayloadAuthenticated := true, PayloadType := payloadType, OEMIANA := 0,
        OEMPayloadID := 0, SessionID := c.session.v20.bmcSessionID,
        Sequence := c.session.v20.sequence, PayloadLength := e.length % 65536 })
    rw [ht]
    exact ⟨_, rfl, rfl, rfl, rfl, rfl⟩

/-- Witness of C15 at an active session with session id 0x11223344 and sequence
number 5. -/
theorem genSession20_active_sequencing_witness :
    ∃ frame,
      Client.genSession20 examplePayloadTypeOEM exampleEncrypt exampleTrailer
          exampleClientActive 0x00 [0x0A, 0x0B] = Except.ok frame ∧
      frame.SessionHeader20.PayloadAuthenticated = true ∧
      frame.SessionHeader20.PayloadEncrypted = true ∧
      frame.SessionHeader20.SessionID = 0x11223344 ∧
      frame.SessionHeader20.Sequence = 5 :=
  genSession20_active_sequencing examplePayloadTypeOEM exampleEncrypt exampleTrailer
    exampleClientActive 0x00 [0x0A, 0x0B] [0xE0, 0xE1, 0xE2, 0xE3, 0x0A, 0x0B] rfl rfl
    (fun _ => ⟨_, rfl⟩)

/-- Claim C16: post-encryption length. For every session context in state
Active and every raw payload, when the encryption collaborator returns bytes e of
at most 65535 bytes and the trailer collaborator succeeds on e, genSession20
succeeds and its frame has SessionPayload e and header PayloadLength len(e),
whatever the raw payload's length; the trailer of the frame is the trailer
collaborator's result on the packed header of the frame and e, and that packed
header ends with len(e) as two little-endian bytes. -/
theorem genSession20_active_payload_length (PayloadTypeOEM : Nat)
    (encryptPlayload : Client → List Nat → List Nat → Except IpmiError (List Nat))
    (genSessionTrailer : Client → List Nat → List Nat → Except IpmiError SessionTrailer)
    (c : Client) (payloadType : Nat) (rawPayload e : List Nat)
    (hst : c.session.v20.state = SessionStateActive)
    (henc : encryptPlayload c rawPayload [] = Except.ok e)
    (htr : ∀ sessionHeaderBytes, ∃ t, genSessionTrailer c sessionHeaderBytes e = Except.ok t)
    (hlen : e.length ≤ 65535) :
    ∃ frame,
      Client.genSession20 PayloadTypeOEM encryptPlayload genSessionTrailer c payloadType
          rawPayload = Except.ok frame ∧
      frame.SessionPayload = e ∧
      frame.SessionHeader20.PayloadLength = e.length ∧
      (∀ t, frame.SessionTrailer = some t →
        genSessionTrailer c (frame.SessionHeader20.Pack PayloadTypeOEM) e = Except.ok t) ∧
      (frame.SessionHeader20.Pack PayloadTypeOEM).drop
          ((frame.SessionHeader20.Pack PayloadTypeOEM).length - 2)
        = [e.length % 256, e.length / 256] := by
  have hmod : e.length % 65536 = e.length := Nat.mod_eq_of_lt (by omega)
  have hhi : e.length / 256 % 256 = e.length / 256 := by omega
  rw [genSession20_active PayloadTypeOEM encryptPlayload genSessionTrailer c payloadType
    rawPayload e hst henc, hmod]
  by_cases hb : c.session.v20.bmcSessionID = 0
  · rw [if_neg (by simpa using hb)]
    refine ⟨_, rfl, rfl, rfl, ?_, ?_⟩
    · intro t ht
      simp at ht
    · rw [sessionHeader20_pack_last_two, hhi]
  · rw [if_pos hb]
    obtain ⟨t, ht⟩ := htr (SessionHeader20.Pack PayloadTypeOEM
      { AuthType := AuthTypeRMCPPlus, PayloadEncrypted := true,
        PayloadAuthenticated := true, PayloadType := payloadType, OEMIANA := 0,
        OEMPayloadID := 0, SessionID := c.session.v20.bmcSessionID,
        Sequence := c.session.v20.sequence, PayloadLength := e.length })
    rw [ht]
    refine ⟨_, rfl, rfl, rfl, ?_, ?_⟩
    · intro t2 ht2
      simp only [Option.some.injEq] at ht2
      rw [← ht2]
      exact ht
    · rw [sessionHeader20_pack_last_two, hhi]

/-- Witness of C16 at an active session: a 2-byte raw payload, encrypted to 6
bytes, gives a frame with those 6 bytes and PayloadLength 6. -/
theorem genSession20_active_payload_length_witness :
    ∃ frame,
      Client.genSession20 examplePayloadTypeOEM exampleEncrypt exampleTrailer
          exampleClientActive 0x00 [0x0A, 0x0B] = Except.ok frame ∧
      frame.SessionPayload = [0xE0, 0xE1, 0xE2, 0xE3, 0x0A, 0x0B] ∧
      frame.SessionHeader20.PayloadLength = 6 :=
  match genSession20_active_payload_length examplePayloadTypeOEM exampleEncrypt exampleTrailer
      exampleClientActive 0x00 [0x0A, 0x0B] [0xE0, 0xE1, 0xE2, 0xE3, 0x0A, 0x0B] rfl rfl
      (fun _ => ⟨_, rfl⟩) (by decide) with
  | ⟨frame, h1, h2, h3, _⟩ => ⟨frame, h1, h2, h3⟩

/-- Claim C17: trailer presence law on build. Whenever genSession20 succeeds, the
frame carries a trailer if and only if its header has PayloadAuthenticated set
and a non-zero SessionID, which holds exactly when the state is Active and
bmcSessionID is not 0; a trailer in the frame is the integrity collaborator's
result for the packed header of the frame and its session payload; and in state
Active with bmcSessionID 0 the frame is flagged authenticated and has no
trailer. -/
theorem genSession20_trailer_iff (PayloadTypeOEM : Nat)
    (encryptPlayload : Client → List Nat → List Nat → Except IpmiError (List Nat))
    (genSessionTrailer : Client → List Nat → List Nat → Except IpmiError SessionTrailer)
    (c : Client) (payloadType : Nat) (rawPayload : List Nat) (frame : Session20)
    (hok : Client.genSession20 PayloadTypeOEM encryptPlayload genSessionTrailer c payloadType
      rawPayload = Except.ok frame) :
    (frame.SessionTrailer.isSome = true ↔
      (frame.SessionHeader20.PayloadAuthenticated = true ∧ frame.SessionHeader20.SessionID ≠ 0)) ∧
    ((frame.SessionHeader20.PayloadAuthenticated = true ∧ frame.SessionHeader20.SessionID ≠ 0) ↔
      (c.session.v20.state = SessionStateActive ∧ c.session.v20.bmcSessionID ≠ 0)) ∧
    (∀ t, frame.SessionTrailer = some t →
      genSessionTrailer c (frame.SessionHeader20.Pack PayloadTypeOEM) frame.SessionPayload
        = Except.ok t) ∧
    ((c.session.v20.state = SessionStateActive ∧ c.session.v20.bmcSessionID = 0) →
      frame.SessionHeader20.PayloadAuthenticated = true ∧ frame.SessionTrailer = none) := by
  by_cases hst : c.session.v20.state = SessionStateActive
  · cases henc : encryptPlayload c rawPayload [] with
    | error err =>
      rw [genSession20_active_encrypt_error _ _ _ c payloadType rawPayload err hst henc] at hok
      cases hok
    | ok e =>
      rw [genSession20_active _ _ _ c payloadType rawPayload e hst henc] at hok
      by_cases hb : c.session.v20.bmcSessionID = 0
      · rw [if_neg (by simpa using hb)] at hok
        cases hok
        simp [hst, hb]
      · rw [if_pos hb] at hok
        cases htr : genSessionTrailer c
            (SessionHeader20.Pack PayloadTypeOEM
              { AuthType := AuthTypeRMCPPlus, PayloadEncrypted := true,
                PayloadAuthenticated := true, PayloadType := payloadType, OEMIANA := 0,
                OEMPayloadID := 0, SessionID := c.session.v20.bmcSessionID,
                Sequence := c.session.v20.sequence, PayloadLength := e.length % 65536 }) e with
        | error err =>
          rw [htr] at hok
          cases hok
        | ok t =>
          rw [htr] at hok
          cases hok
          simp [hst, hb, htr]
  · rw [genSession20_not_active _ _ _ c payloadType rawPayload hst] at hok
    cases hok
    simp [hst]

/-- Witness of C17 at an active session with a non-zero session id: the frame
built there carries the trailer made by the collaborator. -/
theorem genSession20_trailer_iff_witness :
    Client.genSession20 examplePayloadTypeOEM exampleEncrypt exampleTrailer
        exampleClientActive 0x00 [0x0A, 0x0B]
      = Except.ok
          { SessionHeader20 :=
              { AuthType := 0x06, PayloadEncrypted := true, PayloadAuthenticated := true,
                PayloadType := 0x00, OEMIANA := 0, OEMPayloadID := 0, SessionID := 0x11223344,
                Sequence := 5, PayloadLength := 6 }
            SessionPayload := [0xE0, 0xE1, 0xE2, 0xE3, 0x0A, 0x0B]
            SessionTrailer := some
              { IntegrityPAD := [0xFF, 0xFF], PadLength := 2, NextHeader := 0x07,
                AuthCode := [6, 0] } } ∧
    (exampleClientActive.session.v20.state = SessionStateActive ∧
      exampleClientActive.session.v20.bmcSessionID ≠ 0) :=
  ⟨rfl,
    (genSession20_trailer_iff examplePayloadTypeOEM exampleEncrypt exampleTrailer
      exampleClientActive 0x00 [0x0A, 0x0B]
      { SessionHeader20 :=
          { AuthType := 0x06, PayloadEncrypted := true, PayloadAuthenticated := true,
            PayloadType := 0x00, OEMIANA := 0, OEMPayloadID := 0, SessionID := 0x11223344,
            Sequence := 5, PayloadLength := 6 }
        SessionPayload := [0xE0, 0xE1, 0xE2, 0xE3, 0x0A, 0x0B]
        SessionTrailer := some
          { IntegrityPAD := [0xFF, 0xFF], PadLength := 2, NextHeader := 0x07,
            AuthCode := [6, 0] } } rfl).2.1.1 ⟨rfl, by decide⟩⟩

/-- Claim C18: v1.5 frame generation. For every session context, raw payload and
authentication collaborator, genSession15 succeeds with the raw payload
unchanged; if the v1.5 session is active and the negotiated auth type is not
None, the header has the negotiated AuthType, Sequence and SessionID of the v1.5
session context and the collaborator's output for the raw payload as AuthCode;
otherwise it has AuthType None, Sequence 0, SessionID 0 and no auth code. -/
theorem genSession15_frame (genAuthCodeForMultiSession : Client → List Nat → List Nat)
    (c : Client) (rawPayload : List Nat) :
    ∃ frame,
      Client.genSession15 genAuthCodeForMultiSession c rawPayload = Except.ok frame ∧
      frame.Payload = rawPayload ∧
      if c.session.v15.active = true ∧ c.session.authType ≠ AuthTypeNone then
        frame.SessionHeader15.AuthType = c.session.authType ∧
        frame.SessionHeader15.Sequence = c.session.v15.inSeq ∧
        frame.SessionHeader15.SessionID = c.session.v15.sessionID ∧
        frame.SessionHeader15.AuthCode = genAuthCodeForMultiSession c rawPayload
      else
        frame.SessionHeader15.AuthType = AuthTypeNone ∧
        frame.SessionHeader15.Sequence = 0 ∧
        frame.SessionHeader15.SessionID = 0 ∧
        frame.SessionHeader15.AuthCode = [] := by
  refine ⟨_, genSession15_eq genAuthCodeForMultiSession c rawPayload, rfl, ?_⟩
  by_cases hc : c.session.v15.active = true ∧ c.session.authType ≠ AuthTypeNone
  · simp [hc]
  · simp only [if_neg hc]
    simp

/-- Counterexample to C19 as stated: for a raw payload of 256 bytes genSession15
returns a frame whose header PayloadLength is 0 while its Payload has 256
bytes. -/
theorem genSession15_payloadLength_counterexample :
    ∃ frame,
      Client.genSession15 exampleAuthCode exampleClientPreSession (List.replicate 256 0)
        = Except.ok frame ∧
      frame.SessionHeader15.PayloadLength = 0 ∧
      frame.Payload.length = 256 ∧
      frame.SessionHeader15.PayloadLength ≠ frame.Payload.length := by
  refine ⟨_, genSession15_eq exampleAuthCode exampleClientPreSession (List.replicate 256 0),
    ?_, ?_, ?_⟩ <;> simp only [List.length_replicate] <;> decide

/-- Claim C19, amended: for every raw payload and session context the header
built by genSession15 has PayloadLength len(rawPayload) mod 256, the frame's
Payload is the raw payload, and PayloadLength equals the number of bytes in
Payload exactly when the raw payload has at most 255 bytes. -/
theorem genSession15_payloadLength (genAuthCodeForMultiSession : Client → List Nat → List Nat)
    (c : Client) (rawPayload : List Nat) :
    ∃ frame,
      Client.genSession15 genAuthCodeForMultiSession c rawPayload = Except.ok frame ∧
      frame.Payload = rawPayload ∧
      frame.SessionHeader15.PayloadLength = rawPayload.length % 256 ∧
      (frame.SessionHeader15.PayloadLength = frame.Payload.length ↔ rawPayload.length ≤ 255) := by
  refine ⟨_, genSession15_eq genAuthCodeForMultiSession c rawPayload, rfl, ?_, ?_⟩
  · simp only []
    split <;> rfl
  · have hpl : (if c.session.v15.active = true ∧ c.session.authType ≠ AuthTypeNone then
          ({ AuthType := c.session.authType, Sequence := c.session.v15.inSeq,
             SessionID := c.session.v15.sessionID,
             AuthCode := genAuthCodeForMultiSession c rawPayload,
             PayloadLength := rawPayload.length % 256 } : SessionHeader15)
        else
          { AuthType := AuthTypeNone, Sequence := 0, SessionID := 0, AuthCode := [],
            PayloadLength := rawPayload.length % 256 }).PayloadLength
          = rawPayload.length % 256 := by
      split <;> rfl
    simp only [hpl]
    omega

/-- Claim C20: SessionTrailer round trip. For every trailer whose AuthCode has at
most 16 bytes and every receiver, unpacking the packed trailer from offset 0 with
the trailer's own pad size returns no error, the offset len(Pack) and the
trailer itself. -/
theorem sessionTrailer_unpack_pack (s0 t : SessionTrailer) (hac : t.AuthCode.length ≤ 16) :
    SessionTrailer.Unpack s0 t.Pack 0 t.IntegrityPAD.length = (t, t.Pack.length, none) := by
  have key := sessionTrailer_unpack_at_append s0 t [] hac
  simpa using key

/-- Witness of C20 at a trailer with two pad bytes and a 12-byte AuthCode. -/
theorem sessionTrailer_unpack_pack_witness :
    SessionTrailer.Unpack {}
        (SessionTrailer.Pack
          { IntegrityPAD := [0xFF, 0xFF], PadLength := 2, NextHeader := 0x07,
            AuthCode := [1, 2, 3, 4, 5, 6, 7, 8, 9, 10, 11, 12] }) 0 2
      = ({ IntegrityPAD := [0xFF, 0xFF], PadLength := 2, NextHeader := 0x07,
            AuthCode := [1, 2, 3, 4, 5, 6, 7, 8, 9, 10, 11, 12] }, 16, none) :=
  sessionTrailer_unpack_pack {}
    { IntegrityPAD := [0xFF, 0xFF], PadLength := 2, NextHeader := 0x07,
      AuthCode := [1, 2, 3, 4, 5, 6, 7, 8, 9, 10, 11, 12] } (by decide)


/-! ## Helper lemmas: buffers of known minimal length, masks and shifts -/

/-- A buffer of at least 12 bytes starts with 12 bytes. -/
theorem exists_twelve_cons (msg : List Nat) (h : 12 ≤ msg.length) :
    ∃ a0 a1 a2 a3 a4 a5 a6 a7 a8 a9 a10 a11 rest,
      msg = a0 :: a1 :: a2 :: a3 :: a4 :: a5 :: a6 :: a7 :: a8 :: a9 :: a10 :: a11 :: rest := by
  rcases msg with _ | ⟨a0, msg⟩
  · simp at h
    try omega
  rcases msg with _ | ⟨a1, msg⟩
  · simp at h
    try omega
  rcases msg with _ | ⟨a2, msg⟩
  · simp at h
    try omega
  rcases msg with _ | ⟨a3, msg⟩
  · simp at h
    try omega
  rcases msg with _ | ⟨a4, msg⟩
  · simp at h
    try omega
  rcases msg with _ | ⟨a5, msg⟩
  · simp at h
    try omega
  rcases msg with _ | ⟨a6, msg⟩
  · simp at h
    try omega
  rcases msg with _ | ⟨a7, msg⟩
  · simp at h
    try omega
  rcases msg with _ | ⟨a8, msg⟩
  · simp at h
    try omega
  rcases msg with _ | ⟨a9, msg⟩
  · simp at h
    try omega
  rcases msg with _ | ⟨a10, msg⟩
  · simp at h
    try omega
  rcases msg with _ | ⟨a11, msg⟩
  · simp at h
    try omega
  exact ⟨a0, a1, a2, a3, a4, a5, a6, a7, a8, a9, a10, a11, msg, rfl⟩

/-- A buffer of at least 6 bytes starts with 6 bytes. -/
theorem exists_six_cons (msg : List Nat) (h : 6 ≤ msg.length) :
    ∃ b0 b1 b2 b3 b4 b5 rest, msg = b0 :: b1 :: b2 :: b3 :: b4 :: b5 :: rest := by
  rcases msg with _ | ⟨b0, msg⟩
  · simp at h
    try omega
  rcases msg with _ | ⟨b1, msg⟩
  · simp at h
    try omega
  rcases msg with _ | ⟨b2, msg⟩
  · simp at h
    try omega
  rcases msg with _ | ⟨b3, msg⟩
  · simp at h
    try omega
  rcases msg with _ | ⟨b4, msg⟩
  · simp at h
    try omega
  rcases msg with _ | ⟨b5, msg⟩
  · simp at h
    try omega
  exact ⟨b0, b1, b2, b3, b4, b5, msg, rfl⟩

set_option maxRecDepth 8000 in
/-- The flag byte rebuilt from its two flag bits and its low 6 bits is the byte. -/
theorem flagByte_rebuild (b : Nat) (hb : b < 256) :
    ((if b &&& 0x80 = 0x80 then 0x80 else 0x00) |||
      (if b &&& 0x40 = 0x40 then 0x40 else 0x00) ||| ((b &&& 0x3f) % 256)) = b := by
  revert b
  decide

/-- Clearing bit 7 and shifting right by 5 is shifting right by 5 and keeping two
bits. -/
theorem mask7_shift5 (b : Nat) : (b &&& 0x7f) >>> 5 = (b >>> 5) &&& 0x03 := by
  have h1 : b &&& 0x7f = b % 128 := Nat.and_pow_two_sub_one_eq_mod b 7
  have h2 : ∀ x : Nat, x &&& 0x03 = x % 4 := fun x => Nat.and_pow_two_sub_one_eq_mod x 2
  rw [h1, h2, Nat.shiftRight_eq_div_pow, Nat.shiftRight_eq_div_pow]
  omega


/-! ## Claims on the command codecs and the canonical header encoding -/

/-- Code at the failing inputs of C21: for either byte order of the 16-bit
decoder, a non-legacy Dell MAC response unpacks a 2-byte message, too short for
the metadata, and a 6-byte message, too short for the MAC, with no error, the
enabled flag set and an empty MAC. -/
theorem getDellOEMMACResponse_unpack_short_no_error :
    ∀ bigEndian : Bool,
      GetDellOEMMACResponse.Unpack bigEndian { legacy := false } [0x00, 0x00]
        = ({ legacy := false, bladSlotNumber := 0, nicNumber := 0, mac := [], enabled := true },
            none) ∧
      GetDellOEMMACResponse.Unpack bigEndian { legacy := false }
          [0x00, 0x00, 0x00, 0x01, 0x02, 0x03]
        = ({ legacy := false, bladSlotNumber := 0, nicNumber := 0, mac := [], enabled := true },
            none) := by
  decide

/-- Claim C22: canonical v2.0 header encoding. For every buffer of bytes on which
SessionHeader20.Unpack into a fresh header returns no error, packing the parsed
header gives the first 18 bytes of the buffer when the low 6 bits of byte 1 are
the OEM payload type and the first 12 bytes otherwise. -/
theorem sessionHeader20_pack_unpack (PayloadTypeOEM : Nat) (msg : List Nat)
    (hbytes : ∀ b ∈ msg, b < 256)
    (hok : (SessionHeader20.Unpack PayloadTypeOEM {} msg).2 = none) :
    (SessionHeader20.Unpack PayloadTypeOEM {} msg).1.Pack PayloadTypeOEM
      = msg.take (if msg.getD 1 0 &&& 0x3f = PayloadTypeOEM then 18 else 12) := by
  by_cases hlen : msg.length < 12
  · simp [SessionHeader20.Unpack, SessionHeader20SizeMin, hlen] at hok
  · obtain ⟨a0, a1, a2, a3, a4, a5, a6, a7, a8, a9, a10, a11, rest, rfl⟩ :=
      exists_twelve_cons msg (by omega)
    have hf := flagByte_rebuild a1 (hbytes a1 (by simp))
    have h0 := hbytes a0 (by simp)
    have h2 := hbytes a2 (by simp)
    have h3 := hbytes a3 (by simp)
    have h4 := hbytes a4 (by simp)
    have h5 := hbytes a5 (by simp)
    have h6 := hbytes a6 (by simp)
    have h7 := hbytes a7 (by simp)
    have h8 := hbytes a8 (by simp)
    have h9 := hbytes a9 (by simp)
    have h10 := hbytes a10 (by simp)
    have h11 := hbytes a11 (by simp)
    by_cases hoem : a1 &&& 0x3f = PayloadTypeOEM
    · subst hoem
      by_cases hlen2 : rest.length < 6
      · have hle : rest.length ≤ 5 := by omega
        simp_arith [SessionHeader20.Unpack, SessionHeader20SizeMin, SessionHeader20SizeMax,
          unpackUint8, hle] at hok
      · obtain ⟨b0, b1, b2, b3, b4, b5, rest2, rfl⟩ := exists_six_cons rest (by omega)
        have g0 := hbytes b0 (by simp)
        have g1 := hbytes b1 (by simp)
        have g2 := hbytes b2 (by simp)
        have g3 := hbytes b3 (by simp)
        have g4 := hbytes b4 (by simp)
        have g5 := hbytes b5 (by simp)
        rw [sessionHeader20_pack_bytes]
        simp_arith only [SessionHeader20.Unpack, SessionHeader20SizeMin, SessionHeader20SizeMax,
          unpackUint8, unpackUint16L, unpackUint32L, List.length_cons, List.getD_cons_zero,
          List.getD_cons_succ]
        simp_arith [hf]
        omega
    · rw [sessionHeader20_pack_bytes]
      simp_arith only [SessionHeader20.Unpack, SessionHeader20SizeMin, SessionHeader20SizeMax,
        unpackUint8, unpackUint16L, unpackUint32L, List.length_cons, List.getD_cons_zero,
        List.getD_cons_succ]
      simp_arith [hoem, hf]
      omega


/-- Witness of C22 at a 20-byte buffer with an OEM header: re-packing the parsed
header gives its first 18 bytes. -/
theorem sessionHeader20_pack_unpack_witness :
    (SessionHeader20.Unpack examplePayloadTypeOEM {}
        [0x06, 0xC2, 0xA2, 0x02, 0x00, 0x00, 0x34, 0x12, 0xD4, 0xC3, 0xB2, 0xA1,
         0x07, 0x00, 0x00, 0x00, 0x02, 0x01, 0xAA, 0xBB]).2 = none ∧
    (SessionHeader20.Unpack examplePayloadTypeOEM {}
        [0x06, 0xC2, 0xA2, 0x02, 0x00, 0x00, 0x34, 0x12, 0xD4, 0xC3, 0xB2, 0xA1,
         0x07, 0x00, 0x00, 0x00, 0x02, 0x01, 0xAA, 0xBB]).1.Pack examplePayloadTypeOEM
      = [0x06, 0xC2, 0xA2, 0x02, 0x00, 0x00, 0x34, 0x12, 0xD4, 0xC3, 0xB2, 0xA1,
         0x07, 0x00, 0x00, 0x00, 0x02, 0x01] :=
  ⟨by decide,
    (sessionHeader20_pack_unpack examplePayloadTypeOEM
      [0x06, 0xC2, 0xA2, 0x02, 0x00, 0x00, 0x34, 0x12, 0xD4, 0xC3, 0xB2, 0xA1,
       0x07, 0x00, 0x00, 0x00, 0x02, 0x01, 0xAA, 0xBB] (by decide) (by decide)).trans
      (by decide)⟩

/-- The results of `GetDellOEMMAC` when its exchange returns no error. -/
theorem getDellOEMMAC_of_ok
    (E : Client → GetDellOEMMACRequest → GetDellOEMMACResponse →
      GetDellOEMMACResponse × Option IpmiError)
    (c : DellOEMClient) (nicIndex : Int)
    (hok : (E c.Client { embNIC := c.embNIC, nicIndex := nicIndex }
      { legacy := c.idrac10gOrOlder }).2 = none) :
    (c.GetDellOEMMAC E nicIndex).2.2.2.2 = none ∧
    (c.GetDellOEMMAC E nicIndex).2.2.1
      = (E c.Client { embNIC := c.embNIC, nicIndex := nicIndex }
          { legacy := c.idrac10gOrOlder }).1.mac := by
  simp [DellOEMClient.GetDellOEMMAC, hok]

/-- The loop of `GetDellOEMMACs` over `remaining` indices from `i`, when every
exchange on the way returns no error: one rendered MAC per index, in order. -/
theorem getDellOEMMACsLoop_of_ok
    (E : Client → GetDellOEMMACRequest → GetDellOEMMACResponse →
      GetDellOEMMACResponse × Option IpmiError)
    (macString : List Nat → String) (c : DellOEMClient) :
    ∀ (remaining i : Nat) (macList : List String),
      (∀ j, j < remaining →
        (E c.Client { embNIC := c.embNIC, nicIndex := ((i + j : Nat) : Int) }
          { legacy := c.idrac10gOrOlder }).2 = none) →
      DellOEMClient.GetDellOEMMACsLoop E macString c remaining (i : Int) macList
        = (macList ++ (List.range remaining).map (fun j =>
            macString (E c.Client { embNIC := c.embNIC, nicIndex := ((i + j : Nat) : Int) }
              { legacy := c.idrac10gOrOlder }).1.mac), none) := by
  intro remaining
  induction remaining with
  | zero =>
    intro i macList _
    simp [DellOEMClient.GetDellOEMMACsLoop]
  | succ n ih =>
    intro i macList hall
    obtain ⟨h1, h2⟩ := getDellOEMMAC_of_ok E c (i : Int) (by simpa using hall 0 (by omega))
    have hstep : ((i : Int) + 1) = ((i + 1 : Nat) : Int) := by push_cast; rfl
    have hnext := ih (i + 1) (macList ++ [macString (c.GetDellOEMMAC E (i : Int)).2.2.1])
      (by
        intro j hj
        have := hall (j + 1) (by omega)
        rwa [show i + 1 + j = i + (j + 1) by omega])
    have hmap : List.map (fun j =>
          macString (E c.Client { embNIC := c.embNIC, nicIndex := ((i + 1 + j : Nat) : Int) }
            { legacy := c.idrac10gOrOlder }).1.mac) (List.range n)
        = List.map ((fun j =>
          macString (E c.Client { embNIC := c.embNIC, nicIndex := ((i + j : Nat) : Int) }
            { legacy := c.idrac10gOrOlder }).1.mac) ∘ Nat.succ) (List.range n) := by
      apply List.map_congr_left
      intro j _
      simp only [Function.comp]
      rw [show i + 1 + j = i + Nat.succ j by omega]
    simp only [DellOEMClient.GetDellOEMMACsLoop, h1, hstep]
    rw [hnext, h2, List.range_succ_eq_map, hmap]
    simp only [List.map_cons, List.map_map, List.append_assoc, List.singleton_append,
      Nat.add_zero]

/-- Claim C23: Dell MAC enumeration never wraps its 8-bit offset. For every
non-legacy MAC-count response and every message of at least 2 bytes whose byte 1
is a byte m: Unpack returns no error and nicCount = m / 8; for every index i
below the parsed nicCount the request packed for nicIndex = i is the 6 bytes
[0, embNIC mod 256, 0, 0, 8 * i, 8], with 8 * i + 8 <= m; for every nicIndex the
packed request has offset byte (8 * nicIndex) mod 256; for a non-negative embNIC
its byte is embNIC and 0xff; and GetDellOEMMACs, when the count exchange and the
exchanges for the indices below nicCount return no error, returns the rendered
MACs of exactly the indices 0 to nicCount - 1, in order. -/
theorem dellMAC_offset_no_wrap (res : GetDellOEMMACCountResponse) (msg : List Nat)
    (embNIC : Int)
    (hleg : res.legacy = false) (hlen : 2 ≤ msg.length) (hm : msg.getD 1 0 < 256) :
    (GetDellOEMMACCountResponse.Unpack res msg).2 = none ∧
    (GetDellOEMMACCountResponse.Unpack res msg).1.nicCount = ((msg.getD 1 0 / 8 : Nat) : Int) ∧
    (∀ i : Nat, (i : Int) < (GetDellOEMMACCountResponse.Unpack res msg).1.nicCount →
      GetDellOEMMACRequest.Pack { embNIC := embNIC, nicIndex := (i : Int) }
        = [0, (embNIC % 256).toNat, 0, 0, 8 * i, 8] ∧
      8 * i + 8 ≤ msg.getD 1 0) ∧
    (∀ nicIndex : Int,
      GetDellOEMMACRequest.Pack { embNIC := embNIC, nicIndex := nicIndex }
        = [0, (embNIC % 256).toNat, 0, 0, ((8 * nicIndex) % 256).toNat, 8]) ∧
    (0 ≤ embNIC → (embNIC % 256).toNat = embNIC.toNat &&& 0xff) ∧
    (∀ (ExchangeCount : Client → GetDellOEMMACCountRequest → GetDellOEMMACCountResponse →
          GetDellOEMMACCountResponse × Option IpmiError)
        (ExchangeMAC : Client → GetDellOEMMACRequest → GetDellOEMMACResponse →
          GetDellOEMMACResponse × Option IpmiError)
        (macString : List Nat → String) (c : DellOEMClient),
      0 ≤ c.embNIC →
      (ExchangeCount c.Client { embNIC := c.embNIC } { legacy := c.idrac10gOrOlder }).2
        = none →
      (∀ i : Nat,
        (i : Int) < (ExchangeCount c.Client { embNIC := c.embNIC }
          { legacy := c.idrac10gOrOlder }).1.nicCount →
        (ExchangeMAC c.Client { embNIC := c.embNIC, nicIndex := (i : Int) }
          { legacy := c.idrac10gOrOlder }).2 = none) →
      c.GetDellOEMMACs ExchangeCount ExchangeMAC macString
        = ((List.range (ExchangeCount c.Client { embNIC := c.embNIC }
              { legacy := c.idrac10gOrOlder }).1.nicCount.toNat).map (fun (i : Nat) =>
            macString (ExchangeMAC c.Client { embNIC := c.embNIC, nicIndex := (i : Int) }
              { legacy := c.idrac10gOrOlder }).1.mac), none)) := by
  have hb : (unpackUint8 msg 1).1 = msg.getD 1 0 := unpackUint8_fst msg 1 (by omega)
  have hpack : ∀ nicIndex : Int,
      GetDellOEMMACRequest.Pack { embNIC := embNIC, nicIndex := nicIndex }
        = [0, (embNIC % 256).toNat, 0, 0, ((nicIndex * 8) % 256).toNat, 8] := by
    intro nicIndex
    simp [GetDellOEMMACRequest.Pack, packUint8, List.replicate]
  have hcount : (GetDellOEMMACCountResponse.Unpack res msg).1.nicCount
      = ((msg.getD 1 0 / 8 : Nat) : Int) := by
    simp only [GetDellOEMMACCountResponse.Unpack, hleg, hb]
    rw [if_neg (by omega)]
    simp
  refine ⟨?_, hcount, ?_, ?_, ?_, ?_⟩
  · simp only [GetDellOEMMACCountResponse.Unpack, hleg]
    rw [if_neg (by omega)]
    simp
  · intro i hi
    rw [hcount] at hi
    have hi2 : i < msg.getD 1 0 / 8 := by exact_mod_cast hi
    constructor
    · rw [hpack]
      have : (((i : Int) * 8) % 256).toNat = 8 * i := by omega
      rw [this]
    · omega
  · intro nicIndex
    rw [hpack, Int.mul_comm]
  · intro hnn
    have h1 : embNIC.toNat &&& 0xff = embNIC.toNat % 256 :=
      Nat.and_pow_two_sub_one_eq_mod embNIC.toNat 8
    rw [h1]
    omega
  · intro ExchangeCount ExchangeMAC macString c hemb hcok hall
    have hloop := getDellOEMMACsLoop_of_ok ExchangeMAC macString c
      (ExchangeCount c.Client { embNIC := c.embNIC }
        { legacy := c.idrac10gOrOlder }).1.nicCount.toNat 0 []
      (by
        intro j hj
        have := hall j (by omega)
        simpa using this)
    simp only [DellOEMClient.GetDellOEMMACs, DellOEMClient.GetDellOEMMACCount, hcok, hemb,
      if_true]
    simpa using hloop

/-- Witness of C23 at max-length byte 0x18 (three NICs), index 2 and embNIC
0xDA. -/
theorem dellMAC_offset_no_wrap_witness :
    (GetDellOEMMACCountResponse.Unpack {} [0x00, 0x18]).1.nicCount = 3 ∧
    GetDellOEMMACRequest.Pack { embNIC := 0xDA, nicIndex := 2 } = [0, 0xDA, 0, 0, 16, 8] :=
  ⟨(dellMAC_offset_no_wrap {} [0x00, 0x18] 0xDA rfl (by decide) (by decide)).2.1,
    ((dellMAC_offset_no_wrap {} [0x00, 0x18] 0xDA rfl (by decide) (by decide)).2.2.1 2
      (by decide)).1⟩

/-- Claim C24: Dell controller classification. When GetSystemInfo returns no
error and a response of at least 11 bytes with IMC type byte t = Response[10],
NewDellOEMClient succeeds with the given client and: embNIC = 0xCB with
idrac10gOrOlder = true iff t = 0x08; embNIC = 0xDA with idrac10gOrOlder = false
iff t is one of 0x0A, 0x0B, 0x0D, 0x0E, 0x10, 0x11, 0x20, 0x21, 0x30, 0x40;
embNIC = -1 with idrac10gOrOlder = false iff t is any other value, among them
imcIdrac13gDCS = 0x22; and for every Dell client with embNIC = -1 GetDellOEMMACs
returns an empty list and no error, whatever the exchanges are. -/
theorem newDellOEMClient_classification
    (Exchange : Client → GetSystemInfoRequest → GetSystemInfoResponse →
      GetSystemInfoResponse × Option IpmiError)
    (client : Client) (systemRes : GetSystemInfoResponse)
    (hex : Exchange client { param := 0xDD, block := 2 } {} = (systemRes, none))
    (hlen : 11 ≤ systemRes.Response.length) :
    ∃ dellClient,
      NewDellOEMClient Exchange client = Except.ok dellClient ∧
      dellClient.Client = client ∧
      ((dellClient.embNIC = 0xCB ∧ dellClient.idrac10gOrOlder = true) ↔
        systemRes.Response.getD 10 0 = 0x08) ∧
      ((dellClient.embNIC = 0xDA ∧ dellClient.idrac10gOrOlder = false) ↔
        systemRes.Response.getD 10 0 ∈
          ([0x0A, 0x0B, 0x0D, 0x0E, 0x10, 0x11, 0x20, 0x21, 0x30, 0x40] : List Nat)) ∧
      ((dellClient.embNIC = -1 ∧ dellClient.idrac10gOrOlder = false) ↔
        (systemRes.Response.getD 10 0 ≠ 0x08 ∧
          systemRes.Response.getD 10 0 ∉
            ([0x0A, 0x0B, 0x0D, 0x0E, 0x10, 0x11, 0x20, 0x21, 0x30, 0x40] : List Nat))) ∧
      (systemRes.Response.getD 10 0 = imcIdrac13gDCS →
        dellClient.embNIC = -1 ∧ dellClient.idrac10gOrOlder = false) ∧
      (∀ (ExchangeCount : Client → GetDellOEMMACCountRequest → GetDellOEMMACCountResponse →
            GetDellOEMMACCountResponse × Option IpmiError)
          (ExchangeMAC : Client → GetDellOEMMACRequest → GetDellOEMMACResponse →
            GetDellOEMMACResponse × Option IpmiError)
          (macString : List Nat → String) (d : DellOEMClient),
        d.embNIC = -1 →
          d.GetDellOEMMACs ExchangeCount ExchangeMAC macString = ([], none)) := by
  have hnot : ¬ systemRes.Response.length < 11 := by omega
  simp only [NewDellOEMClient, Client.GetSystemInfo, hex, hnot, if_false]
  generalize systemRes.Response.getD 10 0 = t
  refine ⟨_, rfl, rfl, ?_, ?_, ?_, ?_, ?_⟩
  · simp only [imcIdrac10g, imcMaserLiteNU, imcMaserLiteBMC, imcIdrac11gModular,
      imcIdrac11gMonolithic, imcIdrac12gMonolithic, imcIdrac12gModular, imcIdrac13gMonolithic,
      imcIdrac13gModular, imcIdrac14gMonolithic, imcIdrac15gMonolithic]
    split_ifs <;> simp_all
  · simp only [imcIdrac10g, imcMaserLiteNU, imcMaserLiteBMC, imcIdrac11gModular,
      imcIdrac11gMonolithic, imcIdrac12gMonolithic, imcIdrac12gModular, imcIdrac13gMonolithic,
      imcIdrac13gModular, imcIdrac14gMonolithic, imcIdrac15gMonolithic]
    split_ifs <;> simp_all
    omega
  · simp only [imcIdrac10g, imcMaserLiteNU, imcMaserLiteBMC, imcIdrac11gModular,
      imcIdrac11gMonolithic, imcIdrac12gMonolithic, imcIdrac12gModular, imcIdrac13gMonolithic,
      imcIdrac13gModular, imcIdrac14gMonolithic, imcIdrac15gMonolithic]
    split_ifs <;> simp_all
    omega
  · intro ht
    subst ht
    exact ⟨rfl, rfl⟩
  · intro ExchangeCount ExchangeMAC macString d hd
    simp [DellOEMClient.GetDellOEMMACs, hd]


/-- Witness of C24 at a response whose IMC type byte is 0x22: the client is made
with embNIC = -1 and idrac10gOrOlder = false. -/
theorem newDellOEMClient_classification_witness :
    ∃ dellClient,
      NewDellOEMClient exampleExchangeSystemInfo exampleClientActive = Except.ok dellClient ∧
      dellClient.embNIC = -1 ∧ dellClient.idrac10gOrOlder = false :=
  match newDellOEMClient_classification exampleExchangeSystemInfo exampleClientActive
      { Response := [0, 0, 0, 0, 0, 0, 0, 0, 0, 0, 0x22] } rfl (by decide) with
  | ⟨dellClient, h1, _, _, _, _, h5, _⟩ => ⟨dellClient, h1, h5 rfl⟩

/-- Claim C25: chassis status optional byte. For every receiver and buffer,
GetChassisStatusResponse.Unpack returns ErrUnpackedDataTooShort iff the buffer
has fewer than 3 bytes; otherwise it returns no error, PowerRestorePolicy is
(msg[0] >> 5) and 0x03, and the eight front-panel button fields are bits 7 to 0
of msg[3] when the buffer has exactly 4 bytes and are the receiver's own values
when it has 3 or more than 4 bytes. -/
theorem getChassisStatusResponse_unpack (res : GetChassisStatusResponse) (msg : List Nat) :
    ((GetChassisStatusResponse.Unpack res msg).2 = some ErrUnpackedDataTooShort ↔
      msg.length < 3) ∧
    (msg.length < 3 ∨
      ((GetChassisStatusResponse.Unpack res msg).2 = none ∧
       (GetChassisStatusResponse.Unpack res msg).1.PowerRestorePolicy
          = (msg.getD 0 0 >>> 5) &&& 0x03 ∧
       if msg.length = 4 then
         (GetChassisStatusResponse.Unpack res msg).1.SleepButtonDisableAllowed
            = (msg.getD 3 0).testBit 7 ∧
         (GetChassisStatusResponse.Unpack res msg).1.DiagnosticButtonDisableAllowed
            = (msg.getD 3 0).testBit 6 ∧
         (GetChassisStatusResponse.Unpack res msg).1.ResetButtonDisableAllowed
            = (msg.getD 3 0).testBit 5 ∧
         (GetChassisStatusResponse.Unpack res msg).1.PoweroffButtonDisableAllowed
            = (msg.getD 3 0).testBit 4 ∧
         (GetChassisStatusResponse.Unpack res msg).1.SleepButtonDisabled
            = (msg.getD 3 0).testBit 3 ∧
         (GetChassisStatusResponse.Unpack res msg).1.DiagnosticButtonDisabled
            = (msg.getD 3 0).testBit 2 ∧
         (GetChassisStatusResponse.Unpack res msg).1.ResetButtonDisabled
            = (msg.getD 3 0).testBit 1 ∧
         (GetChassisStatusResponse.Unpack res msg).1.PoweroffButtonDisabled
            = (msg.getD 3 0).testBit 0
       else
         (GetChassisStatusResponse.Unpack res msg).1.SleepButtonDisableAllowed
            = res.SleepButtonDisableAllowed ∧
         (GetChassisStatusResponse.Unpack res msg).1.DiagnosticButtonDisableAllowed
            = res.DiagnosticButtonDisableAllowed ∧
         (GetChassisStatusResponse.Unpack res msg).1.ResetButtonDisableAllowed
            = res.ResetButtonDisableAllowed ∧
         (GetChassisStatusResponse.Unpack res msg).1.PoweroffButtonDisableAllowed
            = res.PoweroffButtonDisableAllowed ∧
         (GetChassisStatusResponse.Unpack res msg).1.SleepButtonDisabled
            = res.SleepButtonDisabled ∧
         (GetChassisStatusResponse.Unpack res msg).1.DiagnosticButtonDisabled
            = res.DiagnosticButtonDisabled ∧
         (GetChassisStatusResponse.Unpack res msg).1.ResetButtonDisabled
            = res.ResetButtonDisabled ∧
         (GetChassisStatusResponse.Unpack res msg).1.PoweroffButtonDisabled
            = res.PoweroffButtonDisabled)) := by
  by_cases hlen : msg.length < 3
  · simp [GetChassisStatusResponse.Unpack, hlen]
  · have hb0 : (unpackUint8 msg 0).1 = msg.getD 0 0 := unpackUint8_fst msg 0 (by omega)
    have hm := mask7_shift5 (msg.getD 0 0)
    by_cases h4 : msg.length = 4
    · have hb3 : (unpackUint8 msg 3).1 = msg.getD 3 0 := unpackUint8_fst msg 3 (by omega)
      simp only [GetChassisStatusResponse.Unpack, hb0, hb3, if_neg hlen, if_pos h4, hm,
        isBit0Set, isBit1Set, isBit2Set, isBit3Set, isBit4Set, isBit5Set, isBit6Set, isBit7Set]
      simp [hlen]
    · simp only [GetChassisStatusResponse.Unpack, hb0, if_neg hlen, if_neg h4, hm]
      simp [hlen]

end Ipmi
